import Mathlib

/-!
# Dualminer / GC3355 driver: work framing, unit gating and PLL commands

A shallow embedding of `driver-dualminer.c` and `gc3355.c`.  Byte buffers are lists of
naturals, C strings are lists of character codes, and the serial transport is the list
of frames handed to `icarus_write`, oldest first.  Delays (`usleep`) and logging
(`applog`) have no effect on the modelled state and are left out.
-/

namespace Dualminer

/-! ## libc helpers -/

/-- The C library `memset(buf + off, val, n)`: bytes `off .. off+n-1` of `buf` are
overwritten one after the other.  A write past the end of the list is dropped. -/
def memset (buf : List Nat) (off val : Nat) : Nat → List Nat
  | 0 => buf
  | n + 1 => (memset buf off val n).set (off + n) val

/-- The C library `memcpy(dst + doff, src + soff, n)`, byte by byte.  A read past the
end of `src` yields 0 and a write past the end of `dst` is dropped. -/
def memcpy (dst : List Nat) (doff : Nat) (src : List Nat) (soff : Nat) : Nat → List Nat
  | 0 => dst
  | n + 1 => (memcpy dst doff src soff n).set (doff + n) (src.getD (soff + n) 0)

/-- The update `a[i] = f(a[i])` of one array element; an index past the end is dropped. -/
def modify_at {α : Type} (f : α → α) : List α → Nat → List α
  | [], _ => []
  | a :: l, 0 => f a :: l
  | a :: l, i + 1 => a :: modify_at f l i

/-- The C `isspace` test in the "C" locale. -/
def isspace (c : Char) : Bool :=
  c.toNat = 32 || (9 ≤ c.toNat && c.toNat ≤ 13)

/-- The C `isdigit` test. -/
def isdigit (c : Char) : Bool :=
  48 ≤ c.toNat && c.toNat ≤ 57

/-- Value of the leading run of decimal digits. -/
def atoi_digits (s : List Char) : Nat :=
  (s.takeWhile isdigit).foldl (fun acc c => acc * 10 + (c.toNat - 48)) 0

/-- The C library `strtol(s, NULL, 10)` with the 64-bit `long` of the POSIX hosts: leading
white space is skipped, an optional sign is read, then the longest run of decimal digits;
a value outside the range of `long` is replaced by `LONG_MAX` or `LONG_MIN`. -/
def strtol (s : String) : Int :=
  let v : Int := match s.data.dropWhile isspace with
    | '-' :: rest => - (atoi_digits rest : Int)
    | '+' :: rest => (atoi_digits rest : Int)
    | rest => (atoi_digits rest : Int)
  if v > 9223372036854775807 then 9223372036854775807
  else if v < -9223372036854775808 then -9223372036854775808
  else v

/-- Conversion of a `long` to the 32-bit `int`: the value modulo 2^32 taken in the range
-2^31 .. 2^31 - 1. -/
def long_to_int (v : Int) : Int :=
  (v + 2147483648) % 4294967296 - 2147483648

/-- The C library `atoi`, which glibc defines as `(int) strtol(s, NULL, 10)`: the parsed
value is cut to the 32-bit `int` in which the callers hold it, so a digit string outside
the range of `int` wraps around (`"4294967297"` gives 1). -/
def atoi (s : String) : Int :=
  long_to_int (strtol s)

/-! ## Host framework helpers -/

/-- The bytes of a string constant, without the terminating NUL. -/
def chars (s : String) : List Nat :=
  s.data.map Char.toNat

/-- Value of one hexadecimal digit given by its character code, either case. -/
def hexval (c : Nat) : Option Nat :=
  if 48 ≤ c ∧ c ≤ 57 then some (c - 48)
  else if 97 ≤ c ∧ c ≤ 102 then some (c - 87)
  else if 65 ≤ c ∧ c ≤ 70 then some (c - 55)
  else none

/-- Decoding loop of `hex2bin`: byte `pos` of `p` receives the value of the next two hex
digits, until the string ends or `len` bytes were produced. -/
def hex2bin_loop : List Nat → Nat → Nat → List Nat → List Nat
  | c1 :: c2 :: rest, len + 1, pos, p =>
    match hexval c1, hexval c2 with
    | some hi, some lo => hex2bin_loop rest len (pos + 1) (p.set pos (hi * 16 + lo))
    | _, _ => p
  | _, _, _, p => p

/-- Modelled from the spec: `hex2bin` of the host's util.c, which is not under src/.  The
spec's CommandSender decodes the hex representation of a command to raw bytes: each pair
of hex digits of `hexstr` becomes one byte of `p`, at most `len` bytes. -/
def hex2bin (p : List Nat) (hexstr : List Nat) (len : Nat) : List Nat :=
  hex2bin_loop hexstr len 0 p

/-- Process-wide options and the serial transport of one device. -/
structure State where
  /-- algorithm mode flag: true for Scrypt, false for SHA256 -/
  opt_scrypt : Bool
  /-- operator's PLL frequency string, `none` for NULL -/
  opt_dualminer_pll : Option String
  /-- operator's unit count string, `none` for NULL -/
  opt_dualminer_btc_gating : Option String
  /-- recorded PLL frequency -/
  opt_pll_freq : Int
  /-- recorded number of open units -/
  opt_btc_number : Int
  /-- fan presence flag -/
  opt_hubfans : Bool
  /-- modem status word delivered by `ioctl(fd, TIOCMGET, &status)` -/
  modem : Nat
  /-- frames written to the device so far, oldest first -/
  wire : List (List Nat)

/-- Modelled from the spec: `icarus_write` of icarus-common, which is not under src/.  The
transport contract is `write(bytes)`: the first `n` bytes of `buf` go out as one frame.
Every call in src/ discards the result of the write, so `wire` records the frames handed
to the transport, accepted or not. -/
def icarus_write (st : State) (buf : List Nat) (n : Nat) : State :=
  { st with wire := st.wire ++ [buf.take n] }

/-- The globals as initialised in gc3355.c (`opt_pll_freq = 400`, `opt_btc_number = 160`,
no operator strings, no fan), for the algorithm flag and status word given, before any
write. -/
def initial_state (opt_scrypt : Bool) (modem : Nat) : State :=
  { opt_scrypt := opt_scrypt, opt_dualminer_pll := none, opt_dualminer_btc_gating := none,
    opt_pll_freq := 400, opt_btc_number := 160, opt_hubfans := false, modem := modem,
    wire := [] }

/-- The zeroed 32-byte scratch `ob_bin` after `memset(ob_bin, 0, sizeof(ob_bin))`. -/
def ob_bin_zero : List Nat := memset (List.replicate 32 0) 0 0 32

/-! ## Command tables of gc3355.c -/

def pll_freq_1200M_cmd : List String := ["55AAEF000500E085", "55AA0FFFB02800C0", ""]
def pll_freq_1100M_cmd : List String := ["55AAEF0005006085", "55AA0FFF4C2500C0", ""]
def pll_freq_1000M_cmd : List String := ["55AAEF000500E084", "55AA0FFFE82100C0", ""]
def pll_freq_950M_cmd : List String := ["55AAEF000500A084", "55AA0FFF362000C0", ""]
def pll_freq_900M_cmd : List String := ["55AAEF0005006084", "55AA0FFF841E00C0", ""]
def pll_freq_850M_cmd : List String := ["55AAEF0005002084", "55AA0FFFD21C00C0", ""]
def pll_freq_800M_cmd : List String := ["55AAEF000500E083", "55AA0FFF201B00C0", ""]
def pll_freq_750M_cmd : List String := ["55AAEF000500A083", "55AA0FFF6E1900C0", ""]
def pll_freq_700M_cmd : List String := ["55AAEF0005006083", "55AA0FFFBC1700C0", ""]
def pll_freq_650M_cmd : List String := ["55AAEF0005002083", "55AA0FFF0A1600C0", ""]
def pll_freq_600M_cmd : List String := ["55AAEF000500E082", "55AA0FFF581400C0", ""]
def pll_freq_550M_cmd : List String := ["55AAEF000500A082", "55AA0FFFA61200C0", ""]
def pll_freq_500M_cmd : List String := ["55AAEF0005006082", "55AA0FFFF41000C0", ""]
def pll_freq_400M_cmd : List String := ["55AAEF000500E081", "55AA0FFF900D00C0", ""]

def btc_gating : List String :=
  ["55AAEF0200000000", "55AAEF0300000000", "55AAEF0400000000", "55AAEF0500000000",
   "55AAEF0600000000", ""]

def btc_single_open : List String :=
  ["55AAEF0200000001", "55AAEF0200000003", "55AAEF0200000007", "55AAEF020000000F",
   "55AAEF020000001F", "55AAEF020000003F", "55AAEF020000007F", "55AAEF02000000FF",
   "55AAEF02000001FF", "55AAEF02000003FF", "55AAEF02000007FF", "55AAEF0200000FFF",
   "55AAEF0200001FFF", "55AAEF0200003FFF", "55AAEF0200007FFF", "55AAEF020000FFFF",
   "55AAEF020001FFFF", "55AAEF020003FFFF", "55AAEF020007FFFF", "55AAEF02000FFFFF",
   "55AAEF02001FFFFF", "55AAEF02003FFFFF", "55AAEF02007FFFFF", "55AAEF0200FFFFFF",
   "55AAEF0201FFFFFF", "55AAEF0203FFFFFF", "55AAEF0207FFFFFF", "55AAEF020FFFFFFF",
   "55AAEF021FFFFFFF", "55AAEF023FFFFFFF", "55AAEF027FFFFFFF", "55AAEF02FFFFFFFF",
   "55AAEF0300000001", "55AAEF0300000003", "55AAEF0300000007", "55AAEF030000000F",
   "55AAEF030000001F", "55AAEF030000003F", "55AAEF030000007F", "55AAEF03000000FF",
   "55AAEF03000001FF", "55AAEF03000003FF", "55AAEF03000007FF", "55AAEF0300000FFF",
   "55AAEF0300001FFF", "55AAEF0300003FFF", "55AAEF0300007FFF", "55AAEF030000FFFF",
   "55AAEF030001FFFF", "55AAEF030003FFFF", "55AAEF030007FFFF", "55AAEF03000FFFFF",
   "55AAEF03001FFFFF", "55AAEF03003FFFFF", "55AAEF03007FFFFF", "55AAEF0300FFFFFF",
   "55AAEF0301FFFFFF", "55AAEF0303FFFFFF", "55AAEF0307FFFFFF", "55AAEF030FFFFFFF",
   "55AAEF031FFFFFFF", "55AAEF033FFFFFFF", "55AAEF037FFFFFFF", "55AAEF03FFFFFFFF",
   "55AAEF0400000001", "55AAEF0400000003", "55AAEF0400000007", "55AAEF040000000F",
   "55AAEF040000001F", "55AAEF040000003F", "55AAEF040000007F", "55AAEF04000000FF",
   "55AAEF04000001FF", "55AAEF04000003FF", "55AAEF04000007FF", "55AAEF0400000FFF",
   "55AAEF0400001FFF", "55AAEF0400003FFF", "55AAEF0400007FFF", "55AAEF040000FFFF",
   "55AAEF040001FFFF", "55AAEF040003FFFF", "55AAEF040007FFFF", "55AAEF04000FFFFF",
   "55AAEF04001FFFFF", "55AAEF04003FFFFF", "55AAEF04007FFFFF", "55AAEF0400FFFFFF",
   "55AAEF0401FFFFFF", "55AAEF0403FFFFFF", "55AAEF0407FFFFFF", "55AAEF040FFFFFFF",
   "55AAEF041FFFFFFF", "55AAEF043FFFFFFF", "55AAEF047FFFFFFF", "55AAEF04FFFFFFFF",
   "55AAEF0500000001", "55AAEF0500000003", "55AAEF0500000007", "55AAEF050000000F",
   "55AAEF050000001F", "55AAEF050000003F", "55AAEF050000007F", "55AAEF05000000FF",
   "55AAEF05000001FF", "55AAEF05000003FF", "55AAEF05000007FF", "55AAEF0500000FFF",
   "55AAEF0500001FFF", "55AAEF0500003FFF", "55AAEF0500007FFF", "55AAEF050000FFFF",
   "55AAEF050001FFFF", "55AAEF050003FFFF", "55AAEF050007FFFF", "55AAEF05000FFFFF",
   "55AAEF05001FFFFF", "55AAEF05003FFFFF", "55AAEF05007FFFFF", "55AAEF0500FFFFFF",
   "55AAEF0501FFFFFF", "55AAEF0503FFFFFF", "55AAEF0507FFFFFF", "55AAEF050FFFFFFF",
   "55AAEF051FFFFFFF", "55AAEF053FFFFFFF", "55AAEF057FFFFFFF", "55AAEF05FFFFFFFF",
   "55AAEF0600000001", "55AAEF0600000003", "55AAEF0600000007", "55AAEF060000000F",
   "55AAEF060000001F", "55AAEF060000003F", "55AAEF060000007F", "55AAEF06000000FF",
   "55AAEF06000001FF", "55AAEF06000003FF", "55AAEF06000007FF", "55AAEF0600000FFF",
   "55AAEF0600001FFF", "55AAEF0600003FFF", "55AAEF0600007FFF", "55AAEF060000FFFF",
   "55AAEF060001FFFF", "55AAEF060003FFFF", "55AAEF060007FFFF", "55AAEF06000FFFFF",
   "55AAEF06001FFFFF", "55AAEF06003FFFFF", "55AAEF06007FFFFF", "55AAEF0600FFFFFF",
   "55AAEF0601FFFFFF", "55AAEF0603FFFFFF", "55AAEF0607FFFFFF", "55AAEF060FFFFFFF",
   "55AAEF061FFFFFFF", "55AAEF063FFFFFFF", "55AAEF067FFFFFFF", "55AAEF06FFFFFFFF",
   ""]

def ltc_only_init : List String :=
  ["55AAEF0200000000", "55AAEF0300000000", "55AAEF0400000000", "55AAEF0500000000",
   "55AAEF0600000000", "55AAEF3040000000", "55AA1F2810000000", "55AA1F2813000000", ""]

/-! ## gc3355.c -/

/-- The loop of `gc3355_send_cmds`: each entry before the empty sentinel is decoded into a
zeroed `ob_bin` and its first 8 bytes are written.  Every table above ends in the
sentinel; a table without one ends the loop at its last entry. -/
def gc3355_send_cmds (st : State) : List String → State
  | [] => st
  | c :: cmds =>
    if (chars c).isEmpty then st
    else gc3355_send_cmds (icarus_write st (hex2bin ob_bin_zero (chars c) 32) 8) cmds

/-- POSIX branch of `gc3355_get_cts_status`: 0 when bit 0x20 of the status word is set,
1 otherwise. -/
def gc3355_get_cts_status (st : State) : Int :=
  if st.modem &&& 0x20 ≠ 0 then 0 else 1

/-- The `switch(freq)` of `gc3355_pll_freq_init2`: the command table sent for the parsed
frequency, where `cts` is the value `gc3355_get_cts_status(fd)` read in the default case. -/
def pll_freq_switch (freq cts : Int) : List String :=
  if freq = 400 then pll_freq_400M_cmd
  else if freq = 500 then pll_freq_500M_cmd
  else if freq = 550 then pll_freq_550M_cmd
  else if freq = 600 then pll_freq_600M_cmd
  else if freq = 650 then pll_freq_650M_cmd
  else if freq = 700 then pll_freq_700M_cmd
  else if freq = 750 then pll_freq_750M_cmd
  else if freq = 800 then pll_freq_800M_cmd
  else if freq = 850 then pll_freq_850M_cmd
  else if freq = 900 then pll_freq_900M_cmd
  else if freq = 950 then pll_freq_950M_cmd
  else if freq = 1000 then pll_freq_1000M_cmd
  else if freq = 1100 then pll_freq_1100M_cmd
  else if freq = 1200 then pll_freq_1200M_cmd
  else if cts = 1 then pll_freq_850M_cmd
  else pll_freq_550M_cmd

/-- The function `gc3355_pll_freq_init2`: the frequency is parsed (0 for NULL) and
recorded in `opt_pll_freq`, then the table selected by the `switch` is sent. -/
def gc3355_pll_freq_init2 (st : State) (pll_freq : Option String) : State :=
  let freq : Int := match pll_freq with
    | some s => atoi s
    | none => 0
  let st := { st with opt_pll_freq := freq }
  gc3355_send_cmds st (pll_freq_switch freq (gc3355_get_cts_status st))

/-- The local table `char btc_gating[5][17]` of the two mask encoders: five rows of 16
characters and the terminating NUL. -/
def btc_gating_rows : List (List Nat) :=
  [chars "55AAEF0200000000" ++ [0], chars "55AAEF0300000000" ++ [0],
   chars "55AAEF0400000000" ++ [0], chars "55AAEF0500000000" ++ [0],
   chars "55AAEF0600000000" ++ [0]]

/-- Byte `i` of the union `btc_group` seen through `c8`, for the words `i32`.  On a
little-endian host (`le`) byte 0 of a word is its least significant byte, on a big-endian
host its most significant one. -/
def c8 (le : Bool) (i32 : List Nat) (i : Nat) : Nat :=
  let w := i32.getD (i / 4) 0
  if le then (w / 256 ^ (i % 4)) % 256 else (w / 256 ^ (3 - i % 4)) % 256

/-- Character code of one digit as printed by the `x` conversion: `0`-`9`, then lower
case `a`-`f`. -/
def hexdigit (d : Nat) : Nat :=
  if d < 10 then 48 + d else 87 + d

/-- The call `sprintf(&row[off], "%02x", byte)` for a byte below 256: two digits and the
terminating NUL. -/
def sprintf_02x (row : List Nat) (off byte : Nat) : List Nat :=
  ((row.set off (hexdigit (byte / 16))).set (off + 1) (hexdigit (byte % 16))).set (off + 2) 0

/-- The loop `for(i = 0; i < 20; i++) sprintf(&btc_gating[i / 4][8 + (i % 4) * 2], ...)`,
run for `i = 0 .. n-1`. -/
def btc_gating_render (le : Bool) (i32 : List Nat) (rows : List (List Nat)) :
    Nat → List (List Nat)
  | 0 => rows
  | n + 1 =>
    modify_at (fun row => sprintf_02x row (8 + (n % 4) * 2) (c8 le i32 n))
      (btc_gating_render le i32 rows n) (n / 4)

/-- The C string held in a character array: the characters before the first NUL. -/
def cstr (row : List Nat) : List Nat :=
  row.takeWhile (fun c => c ≠ 0)

/-- The write loop over the rendered rows: stop at a row starting with NUL, otherwise
decode the row into a zeroed `ob_bin` and write its first 8 bytes. -/
def btc_gating_write (st : State) : List (List Nat) → State
  | [] => st
  | row :: rows =>
    if (cstr row).isEmpty then st
    else btc_gating_write (icarus_write st (hex2bin ob_bin_zero (cstr row) 32) 8) rows

/-- The loop `for(i = 0; i < btc_number; i++) btc_group.i32[i / 32] += 1 << (i % 32)` run
for `i = 0 .. n-1`, with 32-bit unsigned words; `1 << 31` contributes bit 31. -/
def btc_group_fill (i32 : List Nat) : Nat → List Nat
  | 0 => i32
  | n + 1 =>
    modify_at (fun w => (w + 2 ^ (n % 32)) % 2 ^ 32) (btc_group_fill i32 n) (n / 32)

/-- The count `btc_number` chosen by `gc3355_open_btc_unit`: 70 for NULL and for a parsed
value outside 0..160, the parsed value otherwise. -/
def open_btc_unit_number (opt_btc_gating : Option String) : Int :=
  match opt_btc_gating with
  | none => 70
  | some s => if atoi s ≤ 160 ∧ atoi s ≥ 0 then atoi s else 70

/-- The words `btc_group.i32` built by `gc3355_open_btc_unit`. -/
def open_btc_unit_mask (opt_btc_gating : Option String) : List Nat :=
  btc_group_fill [0, 0, 0, 0, 0] (open_btc_unit_number opt_btc_gating).toNat

/-- The table `btc_gating` of `gc3355_open_btc_unit` after the rendering loop. -/
def open_btc_unit_rows (le : Bool) (opt_btc_gating : Option String) : List (List Nat) :=
  btc_gating_render le (open_btc_unit_mask opt_btc_gating) btc_gating_rows 20

/-- The function `gc3355_open_btc_unit`: the rendered rows are written and the count is
recorded in `opt_btc_number`. -/
def gc3355_open_btc_unit (le : Bool) (st : State) (opt_btc_gating : Option String) : State :=
  let st := btc_gating_write st (open_btc_unit_rows le opt_btc_gating)
  { st with opt_btc_number := open_btc_unit_number opt_btc_gating }

/-- The words `btc_group.i32` built by `gc3355_open_btc_unit_single`; `index` is an
`unsigned int`. -/
def open_btc_unit_single_mask (index : Nat) : List Nat :=
  let index := index % 160
  modify_at (fun w => (w + 2 ^ (index % 32)) % 2 ^ 32) [0, 0, 0, 0, 0] (index / 32)

/-- The function `gc3355_open_btc_unit_single`. -/
def gc3355_open_btc_unit_single (le : Bool) (st : State) (index : Nat) : State :=
  btc_gating_write st (btc_gating_render le (open_btc_unit_single_mask index) btc_gating_rows 20)

/-- The loop `for(i = 0; i <= unit_count; i++)` of the incremental path, run for
`i = 0 .. n-1`: entry `i` of `btc_single_open` is decoded and written. -/
def one_by_one_loop (st : State) : Nat → State
  | 0 => st
  | n + 1 =>
    icarus_write (one_by_one_loop st n)
      (hex2bin ob_bin_zero (chars (btc_single_open.getD n "")) 32) 8

/-- The function `gc3355_open_btc_unit_one_by_one`. -/
def gc3355_open_btc_unit_one_by_one (st : State) (opt_btc_gating : String) : State :=
  let unit_count := atoi opt_btc_gating
  let unit_count := if unit_count < 0 then 0 else unit_count
  let unit_count := if unit_count > 160 then 160 else unit_count
  if unit_count > 0 ∧ unit_count ≤ 160 then
    let st := one_by_one_loop st (unit_count.toNat + 1)
    { st with opt_btc_number := unit_count }
  else if unit_count = 0 then gc3355_send_cmds st btc_gating
  else st

/-! ### Control lines and init sequences -/

/-- The modem-line bit `TIOCM_DTR` of the POSIX serial interface. -/
def TIOCM_DTR : Nat := 0x002

/-- The modem-line bit `TIOCM_RTS` of the POSIX serial interface. -/
def TIOCM_RTS : Nat := 0x004

/-- The complement `~bit` within a 32-bit `int` flag word. -/
def flag_complement (bit : Nat) : Nat :=
  0xFFFFFFFF - bit

/-- POSIX branch of `gc3355_dual_reset`: the DTR bit of the modem flags is set, then after
the delay cleared again; nothing is written to the device. -/
def gc3355_dual_reset (st : State) : State :=
  let st := { st with modem := st.modem ||| TIOCM_DTR }
  { st with modem := st.modem &&& flag_complement TIOCM_DTR }

/-- POSIX branch of `gc3355_set_rts_status`: the RTS bit of the modem flags is set for a
non-zero `value` and cleared for zero. -/
def gc3355_set_rts_status (st : State) (value : Nat) : State :=
  if value ≠ 0 then { st with modem := st.modem ||| TIOCM_RTS }
  else { st with modem := st.modem &&& flag_complement TIOCM_RTS }

/-- The table `initscrypt_ob` local to `gc3355_opt_scrypt_init`. -/
def opt_scrypt_init_initscrypt_ob : List String :=
  ["55AA1F2810000000", "55AA1F2813000000", ""]

/-- The function `gc3355_opt_scrypt_init`. -/
def gc3355_opt_scrypt_init (st : State) : State :=
  gc3355_send_cmds st opt_scrypt_init_initscrypt_ob

/-- The table `init_ltc_only_ob` local to `gc3355_opt_ltc_only_init`. -/
def init_ltc_only_ob : List String :=
  ["55AAEF0200000000", "55AAEF0300000000", "55AAEF0400000000", "55AAEF0500000000",
   "55AAEF0600000000", "55AAEF3040000000", "55AA1F2810000000", "55AA1F2813000000", ""]

/-- The function `gc3355_opt_ltc_only_init`: the local table is sent, then the PLL is
programmed from `opt_dualminer_pll`. -/
def gc3355_opt_ltc_only_init (st : State) : State :=
  let st := gc3355_send_cmds st init_ltc_only_ob
  gc3355_pll_freq_init2 st st.opt_dualminer_pll

/-- The constant `LTC_UNIT_OPEN`. -/
def LTC_UNIT_OPEN : Int := 0

/-- The table `ltc_only_ob` local to `gc3355_open_ltc_unit`. -/
def ltc_only_ob : List String := ["55AA1F2810000000", ""]

/-- The table `ltc_ob` local to `gc3355_open_ltc_unit`. -/
def ltc_ob : List String := ["55AA1F2814000000", ""]

/-- The function `gc3355_open_ltc_unit`. -/
def gc3355_open_ltc_unit (st : State) (status : Int) : State :=
  if status = LTC_UNIT_OPEN then
    if st.opt_scrypt then gc3355_opt_ltc_only_init st else gc3355_opt_scrypt_init st
  else
    if st.opt_scrypt then gc3355_send_cmds st ltc_only_ob else gc3355_send_cmds st ltc_ob

/-- The table `init_ob` local to `gc3355_dualminer_init` (the `#if 1` block included). -/
def init_ob : List String :=
  ["55AAEF0200000000", "55AAEF0300000000", "55AAEF0400000000", "55AAEF0500000000",
   "55AAEF0600000000", "55AAEF3020000000", "55AA1F2817000000", ""]

/-- The table `initscrypt_ob` local to `gc3355_dualminer_init`. -/
def dualminer_init_initscrypt_ob : List String :=
  ["55AA1F2814000000", "55AA1F2817000000", ""]

/-- The function `gc3355_dualminer_init`: one of the two local tables is sent, and outside
Scrypt mode the PLL is programmed from `opt_dualminer_pll`. -/
def gc3355_dualminer_init (st : State) : State :=
  let st :=
    if st.opt_scrypt then gc3355_send_cmds st dualminer_init_initscrypt_ob
    else gc3355_send_cmds st init_ob
  if !st.opt_scrypt then gc3355_pll_freq_init2 st st.opt_dualminer_pll else st

/-- The constant `HUBFANS_0_9V_BTC`. -/
def HUBFANS_0_9V_BTC : String := "60"

/-- The constant `HUBFANS_1_2V_BTC`. -/
def HUBFANS_1_2V_BTC : String := "0"

/-- The constant `DEFAULT_0_9V_BTC`. -/
def DEFAULT_0_9V_BTC : String := "60"

/-- The constant `DEFAULT_1_2V_BTC`. -/
def DEFAULT_1_2V_BTC : String := "0"

/-- The function `gc3355_init`; `pll_freq` is not used by its body. -/
def gc3355_init (st : State) (pll_freq btc_unit : Option String) (is_ltc_only : Bool) :
    State :=
  if gc3355_get_cts_status st = 1 then
    if st.opt_scrypt then
      if is_ltc_only then gc3355_send_cmds st ltc_only_init else st
    else
      if st.opt_hubfans then
        match btc_unit with
        | none => gc3355_open_btc_unit_one_by_one st HUBFANS_1_2V_BTC
        | some s => gc3355_open_btc_unit_one_by_one st s
      else
        match btc_unit with
        | none => gc3355_open_btc_unit_one_by_one st DEFAULT_1_2V_BTC
        | some s => gc3355_open_btc_unit_one_by_one st s
  else
    if st.opt_scrypt then
      if is_ltc_only then gc3355_send_cmds st ltc_only_init else st
    else
      if st.opt_hubfans then
        match btc_unit with
        | none => gc3355_open_btc_unit_one_by_one st HUBFANS_0_9V_BTC
        | some s => gc3355_open_btc_unit_one_by_one st s
      else
        match btc_unit with
        | none => gc3355_open_btc_unit_one_by_one st DEFAULT_0_9V_BTC
        | some s => gc3355_open_btc_unit_one_by_one st s

/-! ## driver-dualminer.c -/

/-- The value `info->work_size` set by `dualminer_detect_one`. -/
def dualminer_work_size (opt_scrypt : Bool) : Nat :=
  if opt_scrypt then 160 else 52

/-- The function `dualminer_job_prepare`: `ob_bin` is the buffer `state->ob_bin` on entry,
`work_size` is `info->work_size`, and `target`, `midstate`, `data` are the fields of the
work item.  The result is the returned flag and the buffer on exit. -/
def dualminer_job_prepare (opt_scrypt : Bool) (work_size : Nat)
    (ob_bin target midstate data : List Nat) : Bool × List Nat :=
  let ob := memset ob_bin 0 0 work_size
  if opt_scrypt then
    let ob := ob.set 0 0x55
    let ob := ob.set 1 0xaa
    let ob := ob.set 2 0x1f
    let ob := ob.set 3 0x00
    let ob := memcpy ob 4 target 0 32
    let ob := memcpy ob 36 midstate 0 32
    let ob := memcpy ob 68 data 0 80
    let ob := ob.set 148 0xff
    let ob := ob.set 149 0xff
    let ob := ob.set 150 0xff
    let ob := ob.set 151 0xff
    (true, ob)
  else
    let temp_bin := memset (List.replicate 64 0) 0 0 64
    let temp_bin := memcpy temp_bin 0 midstate 0 32
    let temp_bin := memcpy temp_bin 52 data 64 12
    let ob := ob.set 0 0x55
    let ob := ob.set 1 0xaa
    let ob := ob.set 2 0x0f
    let ob := ob.set 3 0x00
    let ob := memcpy ob 8 temp_bin 0 32
    let ob := memcpy ob 40 temp_bin 52 12
    (true, ob)

/-- The constant `RTS_LOW`. -/
def RTS_LOW : Nat := 0

/-- The constant `RTS_HIGH`. -/
def RTS_HIGH : Nat := 1

/-- The constant `LTC_UNIT_CLOSE`. -/
def LTC_UNIT_CLOSE : Int := 1

/-- The function `dualminer_detect_init`: reset, then the init sequence of the algorithm
mode; the result is the returned flag and the state on exit. -/
def dualminer_detect_init (st : State) : Bool × State :=
  let st := gc3355_dual_reset st
  let st := if st.opt_scrypt then gc3355_opt_ltc_only_init st else gc3355_dualminer_init st
  (true, st)

/-- The function `dualminer_job_start_init`. -/
def dualminer_job_start_init (st : State) : Bool × State :=
  if st.opt_scrypt then (true, gc3355_opt_scrypt_init st) else (true, st)

/-- The string `golden_ob` set by `dualminer_detect_one` in Scrypt mode. -/
def golden_ob_scrypt : String :=
  "55aa1f00000000000000000000000000" ++
  "000000000000000000000000aaaaaaaa" ++
  "711c0000603ebdb6e35b05223c54f815" ++
  "5ac33123006b4192e7aafafbeb9ef654" ++
  "4d2973d700000002069b9f9e3ce8a677" ++
  "8dea3d7a00926cd6eaa9585502c9b83a" ++
  "5601f198d7fbf09be9559d6335ebad36" ++
  "3e4f147a8d9934006963030b4e54c408" ++
  "c837ebc2eeac129852a55fee1b1d88f6" ++
  "000c050000000600"

/-- The string `golden_ob` set by `dualminer_detect_one` in SHA256 mode. -/
def golden_ob_sha256 : String :=
  "55aa0f00a08701004a548fe471fa3a9a" ++
  "1371144556c3f64d2500b4826008fe4b" ++
  "bf7698c94eba7946ce22a72f4f672614" ++
  "1a0b3287"

/-- The string `info->golden_ob` set by `dualminer_detect_one`. -/
def dualminer_golden_ob (opt_scrypt : Bool) : String :=
  if opt_scrypt then golden_ob_scrypt else golden_ob_sha256

/-- The state part of `dualminer_thread_init`: in Scrypt mode RTS is raised, then
`gc3355_init` runs on the operator strings with `opt_scrypt` as its ltc-only flag.  The
hash-time and nonce-difficulty fields it sets afterwards are floating point and are not
part of the state; the result is the returned flag and the state on exit. -/
def dualminer_thread_init (st : State) : Bool × State :=
  let st := if st.opt_scrypt then gc3355_set_rts_status st RTS_HIGH else st
  let st := gc3355_init st st.opt_dualminer_pll st.opt_dualminer_btc_gating st.opt_scrypt
  (true, st)

/-- The function `dualminer_thread_shutdown`: the algorithm-specific closing commands,
then RTS is lowered.  Closing the port and freeing the thread data follow and leave the
state as it is. -/
def dualminer_thread_shutdown (le : Bool) (st : State) : State :=
  let st :=
    if st.opt_scrypt then gc3355_open_ltc_unit st LTC_UNIT_CLOSE
    else gc3355_open_btc_unit le st (some "0")
  gc3355_set_rts_status st RTS_LOW

/-! ## Reading the wire

Auxiliary definitions used to state and prove the properties below. -/

/-- The frame that decoding `cmd` into a zeroed `ob_bin` and writing 8 bytes puts on the
wire. -/
def frame (cmd : List Nat) : List Nat :=
  (hex2bin ob_bin_zero cmd 32).take 8

/-- Frames written by `gc3355_send_cmds` for a table. -/
def send_frames : List String → List (List Nat)
  | [] => []
  | c :: cmds => if (chars c).isEmpty then [] else frame (chars c) :: send_frames cmds

/-- Frames written by `btc_gating_write` for rendered rows. -/
def rows_frames : List (List Nat) → List (List Nat)
  | [] => []
  | row :: rows => if (cstr row).isEmpty then [] else frame (cstr row) :: rows_frames rows

/-- Unit `u` is enabled in the mask `i32`: bit `u % 32` of word `u / 32` is set. -/
def unit_enabled (i32 : List Nat) (u : Nat) : Bool :=
  (i32.getD (u / 32) 0).testBit (u % 32)

/-- Number of enabled units among the 160 of the mask. -/
def units_enabled (i32 : List Nat) : Nat :=
  ((List.range 160).filter (unit_enabled i32)).length

/-- Character code of one hex digit in upper case: `0`-`9`, then `A`-`F`. -/
def hexdigit_upper (d : Nat) : Nat :=
  if d < 10 then 48 + d else 55 + d

/-- The 8 upper-case hex digits of a 32-bit word, most significant digit first. -/
def hex8_upper (w : Nat) : List Nat :=
  [hexdigit_upper (w / 16 ^ 7 % 16), hexdigit_upper (w / 16 ^ 6 % 16),
   hexdigit_upper (w / 16 ^ 5 % 16), hexdigit_upper (w / 16 ^ 4 % 16),
   hexdigit_upper (w / 16 ^ 3 % 16), hexdigit_upper (w / 16 ^ 2 % 16),
   hexdigit_upper (w / 16 % 16), hexdigit_upper (w % 16)]

/-- The character code is one of `0`-`9`, `A`-`F`. -/
def is_upper_hex (c : Nat) : Bool :=
  (48 ≤ c && c ≤ 57) || (65 ≤ c && c ≤ 70)

/-- A table entry is well formed: exactly 16 characters, each an upper-case hex digit. -/
def well_formed_cmd (c : String) : Bool :=
  (chars c).length = 16 && (chars c).all is_upper_hex

/-- The static command tables of gc3355.c that end in the empty sentinel: the 14 PLL
tables, `btc_gating`, `btc_single_open`, `ltc_only_init` and the tables local to the init
functions. -/
def command_tables : List (List String) :=
  [pll_freq_1200M_cmd, pll_freq_1100M_cmd, pll_freq_1000M_cmd, pll_freq_950M_cmd,
   pll_freq_900M_cmd, pll_freq_850M_cmd, pll_freq_800M_cmd, pll_freq_750M_cmd,
   pll_freq_700M_cmd, pll_freq_650M_cmd, pll_freq_600M_cmd, pll_freq_550M_cmd,
   pll_freq_500M_cmd, pll_freq_400M_cmd, btc_gating, btc_single_open, ltc_only_init,
   opt_scrypt_init_initscrypt_ob, init_ltc_only_ob, ltc_only_ob, ltc_ob, init_ob,
   dualminer_init_initscrypt_ob]

/-- The bytes a hex string stands for: its pairs of digits decoded by `hex2bin` into a
zeroed buffer of half its length. -/
def decode_hex (s : String) : List Nat :=
  hex2bin (List.replicate ((chars s).length / 2) 0) (chars s) ((chars s).length / 2)

/-- Some write issued between the states `before` and `after` failed, where `fails k` tells
whether the `k`-th frame handed to `icarus_write` was refused by the transport. -/
def write_failed_between (fails : Nat → Bool) (before after : State) : Prop :=
  ∃ k, before.wire.length ≤ k ∧ k < after.wire.length ∧ fails k = true

/-- The value `freq` computed at the head of `gc3355_pll_freq_init2`: the parsed string,
or 0 for NULL. -/
def parsed_freq (pll_freq : Option String) : Int :=
  match pll_freq with
  | some s => atoi s
  | none => 0

/-- The frequencies with a `case` of their own in the `switch` of
`gc3355_pll_freq_init2`. -/
def supported_freqs : List Int :=
  [400, 500, 550, 600, 650, 700, 750, 800, 850, 900, 950, 1000, 1100, 1200]

/-- The 14 PLL command tables. -/
def pll_tables : List (List String) :=
  [pll_freq_1200M_cmd, pll_freq_1100M_cmd, pll_freq_1000M_cmd, pll_freq_950M_cmd,
   pll_freq_900M_cmd, pll_freq_850M_cmd, pll_freq_800M_cmd, pll_freq_750M_cmd,
   pll_freq_700M_cmd, pll_freq_650M_cmd, pll_freq_600M_cmd, pll_freq_550M_cmd,
   pll_freq_500M_cmd, pll_freq_400M_cmd]

/-- The four bytes of a 32-bit word, most significant byte first: the order in which the
hex digits of a table entry spell them. -/
def word_bytes_msb (w : Nat) : List Nat :=
  [w / 256 ^ 3 % 256, w / 256 ^ 2 % 256, w / 256 % 256, w % 256]

/-- The indices `i` at which the loop of `gc3355_open_btc_unit_one_by_one` reads
`btc_single_open[i]`, in order: `0 .. unit_count` when the clamped count is positive, none
otherwise. -/
def one_by_one_reads (opt_btc_gating : String) : List Nat :=
  let unit_count := atoi opt_btc_gating
  let unit_count := if unit_count < 0 then 0 else unit_count
  let unit_count := if unit_count > 160 then 160 else unit_count
  if unit_count > 0 ∧ unit_count ≤ 160 then List.range (unit_count.toNat + 1) else []

/-- The supported frequencies whose PLL table decodes to the frames `frames`. -/
def freqs_of_frames (frames : List (List Nat)) : List Int :=
  supported_freqs.filter (fun f => decide (send_frames (pll_freq_switch f 0) = frames))

/-! ## Integer parsing -/

theorem atoi_range (s : String) : -2147483648 ≤ atoi s ∧ atoi s ≤ 2147483647 := by
  unfold atoi long_to_int
  omega

theorem long_to_int_id (v : Int) (h1 : -2147483648 ≤ v) (h2 : v ≤ 2147483647) :
    long_to_int v = v := by
  unfold long_to_int
  omega

theorem atoi_wraps :
    atoi "70" = 70 ∧ atoi " +70" = 70 ∧ atoi "-5" = -5 ∧ atoi "12ab" = 12 ∧ atoi "" = 0 ∧
    atoi "2147483647" = 2147483647 ∧ atoi "2147483648" = -2147483648 ∧
    atoi "4294967297" = 1 ∧ atoi "-4294967295" = 1 ∧ atoi "4294967696" = 400 ∧
    atoi "99999999999999999999" = -1 ∧ atoi "-99999999999999999999" = 0 := by
  decide!

/-! ## Buffer lemmas -/

theorem memcpy_length (dst : List Nat) (doff : Nat) (src : List Nat) (soff n : Nat) :
    (memcpy dst doff src soff n).length = dst.length := by
  induction n with
  | zero => rfl
  | succ n ih => simp [memcpy, ih]

theorem memset_length (buf : List Nat) (off val n : Nat) :
    (memset buf off val n).length = buf.length := by
  induction n with
  | zero => rfl
  | succ n ih => simp [memset, ih]

theorem set_get_ne (l : List Nat) (i j v : Nat) (h : i ≠ j) : (l.set i v)[j]? = l[j]? := by
  rw [List.getElem?_set, if_neg h]

theorem set_get_eq (l : List Nat) (i v : Nat) (h : i < l.length) :
    (l.set i v)[i]? = some v := by
  rw [List.getElem?_set, if_pos rfl, if_pos h]

theorem memcpy_get_out (dst : List Nat) (doff : Nat) (src : List Nat) (soff n j : Nat)
    (h : j < doff ∨ doff + n ≤ j) :
    (memcpy dst doff src soff n)[j]? = dst[j]? := by
  induction n with
  | zero => rfl
  | succ n ih =>
    rw [memcpy, set_get_ne _ _ _ _ (by omega)]
    exact ih (by omega)

theorem memcpy_get_in (dst : List Nat) (doff : Nat) (src : List Nat) (soff n j : Nat)
    (h1 : doff ≤ j) (h2 : j < doff + n) (h3 : j < dst.length) :
    (memcpy dst doff src soff n)[j]? = some (src.getD (soff + (j - doff)) 0) := by
  induction n with
  | zero => omega
  | succ n ih =>
    rw [memcpy]
    by_cases h : doff + n = j
    · subst h
      rw [set_get_eq _ _ _ (by rw [memcpy_length]; exact h3), Nat.add_sub_cancel_left]
    · rw [set_get_ne _ _ _ _ h]
      exact ih (by omega)

theorem memset_get_out (buf : List Nat) (off val n j : Nat) (h : j < off ∨ off + n ≤ j) :
    (memset buf off val n)[j]? = buf[j]? := by
  induction n with
  | zero => rfl
  | succ n ih =>
    rw [memset, set_get_ne _ _ _ _ (by omega)]
    exact ih (by omega)

theorem memset_get_in (buf : List Nat) (off val n j : Nat)
    (h1 : off ≤ j) (h2 : j < off + n) (h3 : j < buf.length) :
    (memset buf off val n)[j]? = some val := by
  induction n with
  | zero => omega
  | succ n ih =>
    rw [memset]
    by_cases h : off + n = j
    · subst h
      rw [set_get_eq _ _ _ (by rw [memset_length]; exact h3)]
    · rw [set_get_ne _ _ _ _ h]
      exact ih (by omega)

theorem app_get_lt (a b : List Nat) (j : Nat) (h : j < a.length) : (a ++ b)[j]? = a[j]? :=
  List.getElem?_append_left h

theorem app_get_ge (a b : List Nat) (j : Nat) (h : a.length ≤ j) :
    (a ++ b)[j]? = b[j - a.length]? :=
  List.getElem?_append_right h

theorem getD_of_lt (l : List Nat) (j : Nat) (h : j < l.length) :
    some (l.getD j 0) = l[j]? := by
  simp [List.getD, List.getElem?_eq_getElem h]

theorem getD_of_get (l : List Nat) (i v : Nat) (h : l[i]? = some v) : l.getD i 0 = v := by
  rw [List.getD_eq_getElem?_getD, h]; rfl

theorem take_get_lt (l : List Nat) (n j : Nat) (h : j < n) : (l.take n)[j]? = l[j]? := by
  rw [List.getElem?_take, if_pos h]

/-! ## Work framing -/

theorem sha_temp_lo (midstate data : List Nat) (i : Nat) (hi : i < 32) :
    (memcpy (memcpy (memset (List.replicate 64 0) 0 0 64) 0 midstate 0 32) 52 data 64 12).getD i 0
      = midstate.getD i 0 := by
  apply getD_of_get
  rw [memcpy_get_out _ _ _ _ _ _ (by omega),
    memcpy_get_in _ _ _ _ _ _ (by omega) (by omega) (by simp [memset_length]; omega)]
  simp

theorem sha_temp_hi (midstate data : List Nat) (i : Nat) (hi : i < 12) :
    (memcpy (memcpy (memset (List.replicate 64 0) 0 0 64) 0 midstate 0 32) 52 data 64 12).getD
      (52 + i) 0 = data.getD (64 + i) 0 := by
  apply getD_of_get
  rw [memcpy_get_in _ _ _ _ _ _ (by omega) (by omega)
    (by simp [memcpy_length, memset_length]; omega)]
  simp

theorem sha_get (ob target midstate data : List Nat) (hm : 32 ≤ midstate.length)
    (hd : 76 ≤ data.length) (ho : 52 ≤ ob.length) (j : Nat) (hj : j < 52) :
    (dualminer_job_prepare false 52 ob target midstate data).2[j]? =
      ([0x55, 0xAA, 0x0F, 0x00, 0, 0, 0, 0] ++
        (midstate.take 32 ++ (data.drop 64).take 12))[j]? := by
  simp only [dualminer_job_prepare, Bool.false_eq_true, if_false]
  by_cases h1 : j < 4
  · rw [memcpy_get_out _ _ _ _ _ _ (by omega), memcpy_get_out _ _ _ _ _ _ (by omega),
      app_get_lt _ _ _ (by simp; omega)]
    interval_cases j <;>
      simp (disch := first | omega | (simp [memset_length]; omega)) only
        [set_get_ne, set_get_eq] <;> rfl
  · by_cases h2 : j < 8
    · rw [memcpy_get_out _ _ _ _ _ _ (by omega), memcpy_get_out _ _ _ _ _ _ (by omega),
        set_get_ne _ _ _ _ (by omega), set_get_ne _ _ _ _ (by omega),
        set_get_ne _ _ _ _ (by omega), set_get_ne _ _ _ _ (by omega),
        memset_get_in _ _ _ _ _ (by omega) (by omega) (by omega),
        app_get_lt _ _ _ (by simp; omega)]
      interval_cases j <;> rfl
    · by_cases h3 : j < 40
      · obtain ⟨k, rfl⟩ : ∃ k, j = 8 + k := ⟨j - 8, by omega⟩
        rw [memcpy_get_out _ _ _ _ _ _ (by omega),
          memcpy_get_in _ _ _ _ _ _ (by omega) (by omega) (by simp [memset_length]; omega),
          app_get_ge _ _ _ (by simp), app_get_lt _ _ _ (by simp; omega)]
        simp only [Nat.add_sub_cancel_left, Nat.zero_add, List.length_cons, List.length_nil]
        rw [sha_temp_lo _ _ _ (by omega), getD_of_lt _ _ (by omega),
          take_get_lt _ _ _ (by omega)]
      · obtain ⟨k, rfl⟩ : ∃ k, j = 40 + k := ⟨j - 40, by omega⟩
        rw [memcpy_get_in _ _ _ _ _ _ (by omega) (by omega)
            (by simp [memset_length, memcpy_length]; omega),
          app_get_ge _ _ _ (by simp; omega), app_get_ge _ _ _ (by simp; omega)]
        simp only [Nat.add_sub_cancel_left, List.length_cons, List.length_nil,
          List.length_take, Nat.min_eq_left hm]
        rw [sha_temp_hi _ _ _ (by omega), getD_of_lt _ _ (by omega)]
        have e : 40 + k - (0 + 1 + 1 + 1 + 1 + 1 + 1 + 1 + 1) - 32 = k := by omega
        rw [e, take_get_lt _ _ _ (by omega), List.getElem?_drop]

theorem scrypt_get (ob target midstate data : List Nat) (ht : 32 ≤ target.length)
    (hm : 32 ≤ midstate.length) (hd : 80 ≤ data.length) (ho : 160 ≤ ob.length)
    (j : Nat) (hj : j < 160) :
    (dualminer_job_prepare true 160 ob target midstate data).2[j]? =
      ([0x55, 0xAA, 0x1F, 0x00] ++ (target.take 32 ++ (midstate.take 32 ++ (data.take 80 ++
        [0xFF, 0xFF, 0xFF, 0xFF, 0, 0, 0, 0, 0, 0, 0, 0]))))[j]? := by
  simp only [dualminer_job_prepare, if_true]
  by_cases h1 : j < 4
  · rw [set_get_ne _ _ _ _ (by omega), set_get_ne _ _ _ _ (by omega),
      set_get_ne _ _ _ _ (by omega), set_get_ne _ _ _ _ (by omega),
      memcpy_get_out _ _ _ _ _ _ (by omega), memcpy_get_out _ _ _ _ _ _ (by omega),
      memcpy_get_out _ _ _ _ _ _ (by omega), app_get_lt _ _ _ (by simp; omega)]
    interval_cases j <;>
      simp (disch := first | omega | (simp [memset_length]; omega)) only
        [set_get_ne, set_get_eq] <;> rfl
  · by_cases h2 : j < 36
    · obtain ⟨k, rfl⟩ : ∃ k, j = 4 + k := ⟨j - 4, by omega⟩
      rw [set_get_ne _ _ _ _ (by omega), set_get_ne _ _ _ _ (by omega),
        set_get_ne _ _ _ _ (by omega), set_get_ne _ _ _ _ (by omega),
        memcpy_get_out _ _ _ _ _ _ (by omega), memcpy_get_out _ _ _ _ _ _ (by omega),
        memcpy_get_in _ _ _ _ _ _ (by omega) (by omega) (by simp [memset_length]; omega),
        app_get_ge _ _ _ (by simp), app_get_lt _ _ _ (by simp; omega)]
      simp only [Nat.add_sub_cancel_left, Nat.zero_add, List.length_cons, List.length_nil]
      rw [getD_of_lt _ _ (by omega), take_get_lt _ _ _ (by omega)]
    · by_cases h3 : j < 68
      · obtain ⟨k, rfl⟩ : ∃ k, j = 36 + k := ⟨j - 36, by omega⟩
        rw [set_get_ne _ _ _ _ (by omega), set_get_ne _ _ _ _ (by omega),
          set_get_ne _ _ _ _ (by omega), set_get_ne _ _ _ _ (by omega),
          memcpy_get_out _ _ _ _ _ _ (by omega),
          memcpy_get_in _ _ _ _ _ _ (by omega) (by omega)
            (by simp [memset_length, memcpy_length]; omega),
          app_get_ge _ _ _ (by simp; omega), app_get_ge _ _ _ (by simp; omega),
          app_get_lt _ _ _ (by simp; omega)]
        simp only [Nat.add_sub_cancel_left, Nat.zero_add, List.length_cons, List.length_nil,
          List.length_take, Nat.min_eq_left ht]
        have e : 36 + k - (0 + 1 + 1 + 1 + 1) - 32 = k := by omega
        rw [e, getD_of_lt _ _ (by omega), take_get_lt _ _ _ (by omega)]
      · by_cases h4 : j < 148
        · obtain ⟨k, rfl⟩ : ∃ k, j = 68 + k := ⟨j - 68, by omega⟩
          rw [set_get_ne _ _ _ _ (by omega), set_get_ne _ _ _ _ (by omega),
            set_get_ne _ _ _ _ (by omega), set_get_ne _ _ _ _ (by omega),
            memcpy_get_in _ _ _ _ _ _ (by omega) (by omega)
              (by simp [memset_length, memcpy_length]; omega),
            app_get_ge _ _ _ (by simp; omega), app_get_ge _ _ _ (by simp; omega),
            app_get_ge _ _ _ (by simp; omega), app_get_lt _ _ _ (by simp; omega)]
          simp only [Nat.add_sub_cancel_left, Nat.zero_add, List.length_cons, List.length_nil,
            List.length_take, Nat.min_eq_left ht, Nat.min_eq_left hm]
          have e : 68 + k - (0 + 1 + 1 + 1 + 1) - 32 - 32 = k := by omega
          rw [e, getD_of_lt _ _ (by omega), take_get_lt _ _ _ (by omega)]
        · rw [app_get_ge _ _ _ (by simp; omega), app_get_ge _ _ _ (by simp; omega),
            app_get_ge _ _ _ (by simp; omega), app_get_ge _ _ _ (by simp; omega)]
          simp only [List.length_cons, List.length_nil, List.length_take, Nat.min_eq_left ht,
            Nat.min_eq_left hm, Nat.min_eq_left hd]
          by_cases h5 : j < 152
          · interval_cases j <;>
              simp (disch := first | omega |
                  (simp [memset_length, memcpy_length]; omega)) only
                [set_get_ne, set_get_eq] <;> rfl
          · rw [set_get_ne _ _ _ _ (by omega), set_get_ne _ _ _ _ (by omega),
              set_get_ne _ _ _ _ (by omega), set_get_ne _ _ _ _ (by omega),
              memcpy_get_out _ _ _ _ _ _ (by omega), memcpy_get_out _ _ _ _ _ _ (by omega),
              memcpy_get_out _ _ _ _ _ _ (by omega),
              set_get_ne _ _ _ _ (by omega), set_get_ne _ _ _ _ (by omega),
              set_get_ne _ _ _ _ (by omega), set_get_ne _ _ _ _ (by omega),
              memset_get_in _ _ _ _ _ (by omega) (by omega) (by omega)]
            interval_cases j <;> rfl

theorem job_prepare_length (s : Bool) (ws : Nat) (ob target midstate data : List Nat) :
    (dualminer_job_prepare s ws ob target midstate data).2.length = ob.length := by
  cases s <;> simp [dualminer_job_prepare, memcpy_length, memset_length]

theorem sha_take (ob target midstate data : List Nat) (hm : 32 ≤ midstate.length)
    (hd : 76 ≤ data.length) (ho : 52 ≤ ob.length) :
    (dualminer_job_prepare false 52 ob target midstate data).2.take 52 =
      [0x55, 0xAA, 0x0F, 0x00, 0, 0, 0, 0] ++ (midstate.take 32 ++ (data.drop 64).take 12) := by
  apply List.ext_getElem?
  intro j
  by_cases hj : j < 52
  · rw [take_get_lt _ _ _ hj]
    exact sha_get ob target midstate data hm hd ho j hj
  · rw [List.getElem?_eq_none (by simp; omega), List.getElem?_eq_none (by simp; omega)]

theorem scrypt_take (ob target midstate data : List Nat) (ht : 32 ≤ target.length)
    (hm : 32 ≤ midstate.length) (hd : 80 ≤ data.length) (ho : 160 ≤ ob.length) :
    (dualminer_job_prepare true 160 ob target midstate data).2.take 160 =
      [0x55, 0xAA, 0x1F, 0x00] ++ (target.take 32 ++ (midstate.take 32 ++ (data.take 80 ++
        [0xFF, 0xFF, 0xFF, 0xFF, 0, 0, 0, 0, 0, 0, 0, 0]))) := by
  apply List.ext_getElem?
  intro j
  by_cases hj : j < 160
  · rw [take_get_lt _ _ _ hj]
    exact scrypt_get ob target midstate data ht hm hd ho j hj
  · rw [List.getElem?_eq_none (by simp; omega), List.getElem?_eq_none (by simp; omega)]

/-- C1: in SHA256 mode with work size 52, `dualminer_job_prepare` returns true, keeps the
buffer's size, and leaves in its first 52 bytes the header 55 AA 0F 00, four zero bytes,
the first 32 bytes of the midstate and bytes 64..75 of the data, for any target and any
prior buffer contents. -/
theorem C1_sha256_work_frame (ob target midstate data : List Nat)
    (hm : 32 ≤ midstate.length) (hd : 76 ≤ data.length) (ho : 52 ≤ ob.length) :
    (dualminer_job_prepare false 52 ob target midstate data).1 = true ∧
    (dualminer_job_prepare false 52 ob target midstate data).2.length = ob.length ∧
    (dualminer_job_prepare false 52 ob target midstate data).2.take 52 =
      [0x55, 0xAA, 0x0F, 0x00, 0, 0, 0, 0] ++ (midstate.take 32 ++ (data.drop 64).take 12) :=
  ⟨rfl, job_prepare_length _ _ _ _ _ _, sha_take ob target midstate data hm hd ho⟩

/-- Witness for C1: midstate[i] = i, data[i] = i over a 52-byte buffer of 0xEE. -/
theorem C1_sha256_work_frame_witness :
    32 ≤ (List.range 32).length ∧ 76 ≤ (List.range 80).length ∧
    52 ≤ (List.replicate 52 0xEE).length ∧
    ((dualminer_job_prepare false 52 (List.replicate 52 0xEE) (List.replicate 32 0)
        (List.range 32) (List.range 80)).1 = true ∧
      (dualminer_job_prepare false 52 (List.replicate 52 0xEE) (List.replicate 32 0)
        (List.range 32) (List.range 80)).2.length = (List.replicate 52 0xEE).length ∧
      (dualminer_job_prepare false 52 (List.replicate 52 0xEE) (List.replicate 32 0)
        (List.range 32) (List.range 80)).2.take 52 =
        [0x55, 0xAA, 0x0F, 0x00, 0, 0, 0, 0] ++
          ((List.range 32).take 32 ++ ((List.range 80).drop 64).take 12)) :=
  ⟨by simp, by simp, by simp,
    C1_sha256_work_frame _ _ _ _ (by simp) (by simp) (by simp)⟩

/-- C2: in Scrypt mode with work size 160, `dualminer_job_prepare` returns true, keeps the
buffer's size, and leaves in its first 160 bytes the header 55 AA 1F 00, the 32 target
bytes, the 32 midstate bytes, the 80 data bytes, FF FF FF FF and eight zero bytes, for any
prior buffer contents. -/
theorem C2_scrypt_work_frame (ob target midstate data : List Nat)
    (ht : 32 ≤ target.length) (hm : 32 ≤ midstate.length) (hd : 80 ≤ data.length)
    (ho : 160 ≤ ob.length) :
    (dualminer_job_prepare true 160 ob target midstate data).1 = true ∧
    (dualminer_job_prepare true 160 ob target midstate data).2.length = ob.length ∧
    (dualminer_job_prepare true 160 ob target midstate data).2.take 160 =
      [0x55, 0xAA, 0x1F, 0x00] ++ (target.take 32 ++ (midstate.take 32 ++ (data.take 80 ++
        [0xFF, 0xFF, 0xFF, 0xFF, 0, 0, 0, 0, 0, 0, 0, 0]))) :=
  ⟨rfl, job_prepare_length _ _ _ _ _ _, scrypt_take ob target midstate data ht hm hd ho⟩

/-- Witness for C2: target bytes 0xA0.., midstate[i] = i, data[i] = 100 + i over a 160-byte
buffer of 0xEE. -/
theorem C2_scrypt_work_frame_witness :
    32 ≤ (List.replicate 32 0xA0).length ∧ 32 ≤ (List.range 32).length ∧
    80 ≤ ((List.range 80).map (100 + ·)).length ∧ 160 ≤ (List.replicate 160 0xEE).length ∧
    ((dualminer_job_prepare true 160 (List.replicate 160 0xEE) (List.replicate 32 0xA0)
        (List.range 32) ((List.range 80).map (100 + ·))).1 = true ∧
      (dualminer_job_prepare true 160 (List.replicate 160 0xEE) (List.replicate 32 0xA0)
        (List.range 32) ((List.range 80).map (100 + ·))).2.length =
        (List.replicate 160 0xEE).length ∧
      (dualminer_job_prepare true 160 (List.replicate 160 0xEE) (List.replicate 32 0xA0)
        (List.range 32) ((List.range 80).map (100 + ·))).2.take 160 =
        [0x55, 0xAA, 0x1F, 0x00] ++ ((List.replicate 32 0xA0).take 32 ++
          ((List.range 32).take 32 ++ (((List.range 80).map (100 + ·)).take 80 ++
            [0xFF, 0xFF, 0xFF, 0xFF, 0, 0, 0, 0, 0, 0, 0, 0])))) :=
  ⟨by simp, by simp, by simp, by simp,
    C2_scrypt_work_frame _ _ _ _ (by simp) (by simp) (by simp) (by simp)⟩

/-- C3: for either algorithm mode, with the work size of that mode, two runs of
`dualminer_job_prepare` on the same target, midstate and data but different prior buffer
contents agree on the first work-size bytes of the buffer. -/
theorem C3_no_stale_bytes (opt_scrypt : Bool) (ob1 ob2 target midstate data : List Nat)
    (ht : 32 ≤ target.length) (hm : 32 ≤ midstate.length) (hd : 80 ≤ data.length)
    (h1 : dualminer_work_size opt_scrypt ≤ ob1.length)
    (h2 : dualminer_work_size opt_scrypt ≤ ob2.length) :
    (dualminer_job_prepare opt_scrypt (dualminer_work_size opt_scrypt) ob1 target midstate
        data).2.take (dualminer_work_size opt_scrypt) =
      (dualminer_job_prepare opt_scrypt (dualminer_work_size opt_scrypt) ob2 target midstate
        data).2.take (dualminer_work_size opt_scrypt) := by
  cases opt_scrypt
  · have e : dualminer_work_size false = 52 := rfl
    rw [e] at h1 h2 ⊢
    rw [sha_take ob1 target midstate data hm (by omega) h1,
      sha_take ob2 target midstate data hm (by omega) h2]
  · have e : dualminer_work_size true = 160 := rfl
    rw [e] at h1 h2 ⊢
    rw [scrypt_take ob1 target midstate data ht hm hd h1,
      scrypt_take ob2 target midstate data ht hm hd h2]

/-- Witness for C3: Scrypt mode, a buffer of 0xEE against a longer buffer of 0x11. -/
theorem C3_no_stale_bytes_witness :
    32 ≤ (List.replicate 32 7).length ∧ 32 ≤ (List.range 32).length ∧
    80 ≤ (List.range 80).length ∧
    dualminer_work_size true ≤ (List.replicate 160 0xEE).length ∧
    dualminer_work_size true ≤ (List.replicate 200 0x11).length ∧
    (dualminer_job_prepare true (dualminer_work_size true) (List.replicate 160 0xEE)
        (List.replicate 32 7) (List.range 32) (List.range 80)).2.take
        (dualminer_work_size true) =
      (dualminer_job_prepare true (dualminer_work_size true) (List.replicate 200 0x11)
        (List.replicate 32 7) (List.range 32) (List.range 80)).2.take
        (dualminer_work_size true) :=
  ⟨by simp, by simp, by simp, by rw [List.length_replicate]; decide,
    by rw [List.length_replicate]; decide,
    C3_no_stale_bytes true _ _ _ _ _ (by simp) (by simp) (by simp)
      (by rw [List.length_replicate]; decide) (by rw [List.length_replicate]; decide)⟩

/-! ## What the command senders put on the wire -/

theorem icarus_write_wire (st : State) (buf : List Nat) (n : Nat) :
    (icarus_write st buf n).wire = st.wire ++ [buf.take n] := rfl

theorem send_cmds_wire (st : State) (cmds : List String) :
    (gc3355_send_cmds st cmds).wire = st.wire ++ send_frames cmds := by
  induction cmds generalizing st with
  | nil => simp [gc3355_send_cmds, send_frames]
  | cons c cmds ih =>
    by_cases h : (chars c).isEmpty
    · simp [gc3355_send_cmds, send_frames, h]
    · simp [gc3355_send_cmds, send_frames, h, ih, icarus_write_wire, frame]

theorem btc_gating_write_wire (st : State) (rows : List (List Nat)) :
    (btc_gating_write st rows).wire = st.wire ++ rows_frames rows := by
  induction rows generalizing st with
  | nil => simp [btc_gating_write, rows_frames]
  | cons r rows ih =>
    by_cases h : (cstr r).isEmpty
    · simp [btc_gating_write, rows_frames, h]
    · simp [btc_gating_write, rows_frames, h, ih, icarus_write_wire, frame]

theorem one_by_one_loop_wire (st : State) (n : Nat) :
    (one_by_one_loop st n).wire =
      st.wire ++ (List.range n).map (fun i => frame (chars (btc_single_open.getD i ""))) := by
  induction n with
  | zero => simp [one_by_one_loop]
  | succ n ih =>
    simp [one_by_one_loop, icarus_write_wire, ih, List.range_succ, frame]

/-! ## Rendering a mask -/

theorem btc_gating_rows_eq : btc_gating_rows =
    [[53, 53, 65, 65, 69, 70, 48, 50, 48, 48, 48, 48, 48, 48, 48, 48, 0],
     [53, 53, 65, 65, 69, 70, 48, 51, 48, 48, 48, 48, 48, 48, 48, 48, 0],
     [53, 53, 65, 65, 69, 70, 48, 52, 48, 48, 48, 48, 48, 48, 48, 48, 0],
     [53, 53, 65, 65, 69, 70, 48, 53, 48, 48, 48, 48, 48, 48, 48, 48, 0],
     [53, 53, 65, 65, 69, 70, 48, 54, 48, 48, 48, 48, 48, 48, 48, 48, 0]] := by
  decide

theorem render_eq_foldl (le : Bool) (i32 : List Nat) (rows : List (List Nat)) (n : Nat) :
    btc_gating_render le i32 rows n =
      (List.range n).foldl (fun r i =>
        modify_at (fun row => sprintf_02x row (8 + (i % 4) * 2) (c8 le i32 i)) r (i / 4))
        rows := by
  induction n with
  | zero => rfl
  | succ n ih => rw [btc_gating_render, ih, List.range_succ, List.foldl_append]; rfl

theorem render_generic (b : Nat → Nat) :
    (List.range 20).foldl (fun r i =>
        modify_at (fun row => sprintf_02x row (8 + (i % 4) * 2) (b i)) r (i / 4))
      [[53, 53, 65, 65, 69, 70, 48, 50, 48, 48, 48, 48, 48, 48, 48, 48, 0],
     [53, 53, 65, 65, 69, 70, 48, 51, 48, 48, 48, 48, 48, 48, 48, 48, 0],
     [53, 53, 65, 65, 69, 70, 48, 52, 48, 48, 48, 48, 48, 48, 48, 48, 0],
     [53, 53, 65, 65, 69, 70, 48, 53, 48, 48, 48, 48, 48, 48, 48, 48, 0],
     [53, 53, 65, 65, 69, 70, 48, 54, 48, 48, 48, 48, 48, 48, 48, 48, 0]] =
    [[53, 53, 65, 65, 69, 70, 48, 50,
      hexdigit (b 0 / 16), hexdigit (b 0 % 16),
      hexdigit (b 1 / 16), hexdigit (b 1 % 16),
      hexdigit (b 2 / 16), hexdigit (b 2 % 16),
      hexdigit (b 3 / 16), hexdigit (b 3 % 16), 0],
     [53, 53, 65, 65, 69, 70, 48, 51,
      hexdigit (b 4 / 16), hexdigit (b 4 % 16),
      hexdigit (b 5 / 16), hexdigit (b 5 % 16),
      hexdigit (b 6 / 16), hexdigit (b 6 % 16),
      hexdigit (b 7 / 16), hexdigit (b 7 % 16), 0],
     [53, 53, 65, 65, 69, 70, 48, 52,
      hexdigit (b 8 / 16), hexdigit (b 8 % 16),
      hexdigit (b 9 / 16), hexdigit (b 9 % 16),
      hexdigit (b 10 / 16), hexdigit (b 10 % 16),
      hexdigit (b 11 / 16), hexdigit (b 11 % 16), 0],
     [53, 53, 65, 65, 69, 70, 48, 53,
      hexdigit (b 12 / 16), hexdigit (b 12 % 16),
      hexdigit (b 13 / 16), hexdigit (b 13 % 16),
      hexdigit (b 14 / 16), hexdigit (b 14 % 16),
      hexdigit (b 15 / 16), hexdigit (b 15 % 16), 0],
     [53, 53, 65, 65, 69, 70, 48, 54,
      hexdigit (b 16 / 16), hexdigit (b 16 % 16),
      hexdigit (b 17 / 16), hexdigit (b 17 % 16),
      hexdigit (b 18 / 16), hexdigit (b 18 % 16),
      hexdigit (b 19 / 16), hexdigit (b 19 % 16), 0]] := by
  simp [List.range, List.range.loop, modify_at, sprintf_02x]

theorem render_rows (le : Bool) (i32 : List Nat) :
    btc_gating_render le i32 btc_gating_rows 20 =
    [[53, 53, 65, 65, 69, 70, 48, 50,
      hexdigit (c8 le i32 0 / 16), hexdigit (c8 le i32 0 % 16),
      hexdigit (c8 le i32 1 / 16), hexdigit (c8 le i32 1 % 16),
      hexdigit (c8 le i32 2 / 16), hexdigit (c8 le i32 2 % 16),
      hexdigit (c8 le i32 3 / 16), hexdigit (c8 le i32 3 % 16), 0],
     [53, 53, 65, 65, 69, 70, 48, 51,
      hexdigit (c8 le i32 4 / 16), hexdigit (c8 le i32 4 % 16),
      hexdigit (c8 le i32 5 / 16), hexdigit (c8 le i32 5 % 16),
      hexdigit (c8 le i32 6 / 16), hexdigit (c8 le i32 6 % 16),
      hexdigit (c8 le i32 7 / 16), hexdigit (c8 le i32 7 % 16), 0],
     [53, 53, 65, 65, 69, 70, 48, 52,
      hexdigit (c8 le i32 8 / 16), hexdigit (c8 le i32 8 % 16),
      hexdigit (c8 le i32 9 / 16), hexdigit (c8 le i32 9 % 16),
      hexdigit (c8 le i32 10 / 16), hexdigit (c8 le i32 10 % 16),
      hexdigit (c8 le i32 11 / 16), hexdigit (c8 le i32 11 % 16), 0],
     [53, 53, 65, 65, 69, 70, 48, 53,
      hexdigit (c8 le i32 12 / 16), hexdigit (c8 le i32 12 % 16),
      hexdigit (c8 le i32 13 / 16), hexdigit (c8 le i32 13 % 16),
      hexdigit (c8 le i32 14 / 16), hexdigit (c8 le i32 14 % 16),
      hexdigit (c8 le i32 15 / 16), hexdigit (c8 le i32 15 % 16), 0],
     [53, 53, 65, 65, 69, 70, 48, 54,
      hexdigit (c8 le i32 16 / 16), hexdigit (c8 le i32 16 % 16),
      hexdigit (c8 le i32 17 / 16), hexdigit (c8 le i32 17 % 16),
      hexdigit (c8 le i32 18 / 16), hexdigit (c8 le i32 18 % 16),
      hexdigit (c8 le i32 19 / 16), hexdigit (c8 le i32 19 % 16), 0]] := by
  rw [render_eq_foldl, btc_gating_rows_eq]
  exact render_generic (c8 le i32)

theorem hexdigit_ne_zero (d : Nat) : hexdigit d ≠ 0 := by
  unfold hexdigit; split <;> omega

theorem hexval_hexdigit (d : Nat) (h : d < 16) : hexval (hexdigit d) = some d := by
  interval_cases d <;> rfl

theorem ob_bin_zero_eq : ob_bin_zero = List.replicate 32 0 := by decide

theorem frame_generic (c v d1 d2 d3 d4 d5 d6 d7 d8 : Nat) (hc : hexval c = some v)
    (h1 : d1 < 16) (h2 : d2 < 16) (h3 : d3 < 16) (h4 : d4 < 16)
    (h5 : d5 < 16) (h6 : d6 < 16) (h7 : d7 < 16) (h8 : d8 < 16) :
    frame [53, 53, 65, 65, 69, 70, 48, c, hexdigit d1, hexdigit d2, hexdigit d3, hexdigit d4,
      hexdigit d5, hexdigit d6, hexdigit d7, hexdigit d8] =
      [0x55, 0xAA, 0xEF, v, d1 * 16 + d2, d3 * 16 + d4, d5 * 16 + d6, d7 * 16 + d8] := by
  have e5 : hexval 53 = some 5 := rfl
  have eA : hexval 65 = some 10 := rfl
  have eE : hexval 69 = some 14 := rfl
  have eF : hexval 70 = some 15 := rfl
  have e0 : hexval 48 = some 0 := rfl
  simp [frame, hex2bin, hex2bin_loop, ob_bin_zero_eq, e5, eA, eE, eF, e0, hc,
    hexval_hexdigit, h1, h2, h3, h4, h5, h6, h7, h8, List.replicate]

theorem cstr_generic (c h1 h2 h3 h4 h5 h6 h7 h8 : Nat) (hc : c ≠ 0)
    (n1 : h1 ≠ 0) (n2 : h2 ≠ 0) (n3 : h3 ≠ 0) (n4 : h4 ≠ 0)
    (n5 : h5 ≠ 0) (n6 : h6 ≠ 0) (n7 : h7 ≠ 0) (n8 : h8 ≠ 0) :
    cstr [53, 53, 65, 65, 69, 70, 48, c, h1, h2, h3, h4, h5, h6, h7, h8, 0] =
      [53, 53, 65, 65, 69, 70, 48, c, h1, h2, h3, h4, h5, h6, h7, h8] := by
  simp [cstr, List.takeWhile, hc, n1, n2, n3, n4, n5, n6, n7, n8]

theorem c8_lt (le : Bool) (i32 : List Nat) (i : Nat) : c8 le i32 i < 256 := by
  unfold c8; split <;> exact Nat.mod_lt _ (by decide)

theorem row_frame (c v b0 b1 b2 b3 : Nat) (hc : hexval c = some v) (hc0 : c ≠ 0)
    (l0 : b0 < 256) (l1 : b1 < 256) (l2 : b2 < 256) (l3 : b3 < 256) :
    frame (cstr [53, 53, 65, 65, 69, 70, 48, c, hexdigit (b0 / 16), hexdigit (b0 % 16),
      hexdigit (b1 / 16), hexdigit (b1 % 16), hexdigit (b2 / 16), hexdigit (b2 % 16),
      hexdigit (b3 / 16), hexdigit (b3 % 16), 0]) = [0x55, 0xAA, 0xEF, v, b0, b1, b2, b3] := by
  rw [cstr_generic _ _ _ _ _ _ _ _ _ hc0 (hexdigit_ne_zero _) (hexdigit_ne_zero _)
    (hexdigit_ne_zero _) (hexdigit_ne_zero _) (hexdigit_ne_zero _) (hexdigit_ne_zero _)
    (hexdigit_ne_zero _) (hexdigit_ne_zero _),
    frame_generic c v _ _ _ _ _ _ _ _ hc (by omega) (by omega) (by omega) (by omega)
      (by omega) (by omega) (by omega) (by omega)]
  have e : ∀ b : Nat, b / 16 * 16 + b % 16 = b := fun b => by omega
  rw [e, e, e, e]

theorem cstr_row_ne (c h1 h2 h3 h4 h5 h6 h7 h8 : Nat) :
    (cstr [53, 53, 65, 65, 69, 70, 48, c, h1, h2, h3, h4, h5, h6, h7, h8, 0]).isEmpty
      = false := by
  simp [cstr, List.takeWhile]

theorem render_frames (le : Bool) (i32 : List Nat) :
    rows_frames (btc_gating_render le i32 btc_gating_rows 20) =
      [[0x55, 0xAA, 0xEF, 2, c8 le i32 0, c8 le i32 1, c8 le i32 2, c8 le i32 3],
       [0x55, 0xAA, 0xEF, 3, c8 le i32 4, c8 le i32 5, c8 le i32 6, c8 le i32 7],
       [0x55, 0xAA, 0xEF, 4, c8 le i32 8, c8 le i32 9, c8 le i32 10, c8 le i32 11],
       [0x55, 0xAA, 0xEF, 5, c8 le i32 12, c8 le i32 13, c8 le i32 14, c8 le i32 15],
       [0x55, 0xAA, 0xEF, 6, c8 le i32 16, c8 le i32 17, c8 le i32 18, c8 le i32 19]] := by
  rw [render_rows]
  simp only [rows_frames, cstr_row_ne, Bool.false_eq_true, if_false]
  rw [row_frame 50 2 _ _ _ _ rfl (by decide) (c8_lt _ _ _) (c8_lt _ _ _) (c8_lt _ _ _)
      (c8_lt _ _ _),
    row_frame 51 3 _ _ _ _ rfl (by decide) (c8_lt _ _ _) (c8_lt _ _ _) (c8_lt _ _ _)
      (c8_lt _ _ _),
    row_frame 52 4 _ _ _ _ rfl (by decide) (c8_lt _ _ _) (c8_lt _ _ _) (c8_lt _ _ _)
      (c8_lt _ _ _),
    row_frame 53 5 _ _ _ _ rfl (by decide) (c8_lt _ _ _) (c8_lt _ _ _) (c8_lt _ _ _)
      (c8_lt _ _ _),
    row_frame 54 6 _ _ _ _ rfl (by decide) (c8_lt _ _ _) (c8_lt _ _ _) (c8_lt _ _ _)
      (c8_lt _ _ _)]

/-! ## Masks -/

theorem fill_words : ∀ n < 161, btc_group_fill [0, 0, 0, 0, 0] n =
    [2 ^ min 32 n - 1, 2 ^ min 32 (n - 32) - 1, 2 ^ min 32 (n - 64) - 1,
      2 ^ min 32 (n - 96) - 1, 2 ^ min 32 (n - 128) - 1] := by
  decide!

theorem fill_length (n : Nat) (h : n < 161) : (btc_group_fill [0, 0, 0, 0, 0] n).length = 5 := by
  rw [fill_words n h]; rfl

theorem fill_word_lt (n : Nat) (h : n < 161) :
    ∀ w ∈ btc_group_fill [0, 0, 0, 0, 0] n, w < 2 ^ 32 := by
  rw [fill_words n h]
  have key : ∀ m : Nat, 2 ^ min 32 m - 1 < 2 ^ 32 := fun m =>
    Nat.lt_of_lt_of_le (Nat.sub_lt (Nat.two_pow_pos _) (by decide))
      (Nat.pow_le_pow_right (by decide) (Nat.min_le_left _ _))
  intro w hw
  simp only [List.mem_cons, List.mem_nil_iff, or_false] at hw
  rcases hw with h | h | h | h | h <;> rw [h] <;> exact key _

theorem fill_bits (n : Nat) (h : n < 161) (u : Nat) (hu : u < 160) :
    unit_enabled (btc_group_fill [0, 0, 0, 0, 0] n) u = decide (u < n) := by
  rw [fill_words n h]
  obtain ⟨q, hq⟩ : ∃ q, u / 32 = q := ⟨_, rfl⟩
  have hq5 : q < 5 := by omega
  unfold unit_enabled
  rw [hq]
  interval_cases q <;>
    simp only [List.getD_cons_zero, List.getD_cons_succ, Nat.testBit_two_pow_sub_one,
      decide_eq_decide] <;> omega

theorem range_filter_lt (n N : Nat) :
    ((List.range N).filter (fun u => decide (u < n))).length = min n N := by
  induction N with
  | zero => simp
  | succ N ih =>
    rw [List.range_succ, List.filter_append, List.length_append, ih]
    by_cases h : N < n
    · simp [List.filter, h]; omega
    · simp [List.filter, h]; omega

theorem range_filter_eq (j N : Nat) :
    ((List.range N).filter (fun u => decide (u = j))).length = if j < N then 1 else 0 := by
  induction N with
  | zero => simp
  | succ N ih =>
    rw [List.range_succ, List.filter_append, List.length_append, ih]
    by_cases h : N = j
    · subst h; simp [List.filter]
    · simp only [List.filter, h, decide_False, List.length_nil, Nat.add_zero]
      by_cases h2 : j < N
      · rw [if_pos h2, if_pos (by omega)]
      · rw [if_neg h2, if_neg (by omega)]

theorem fill_count (n : Nat) (h : n < 161) :
    units_enabled (btc_group_fill [0, 0, 0, 0, 0] n) = n := by
  unfold units_enabled
  rw [List.filter_congr (q := fun u => decide (u < n))
    (fun u hu => fill_bits n h u (List.mem_range.mp hu)), range_filter_lt]
  omega

theorem single_mask_bits (i u : Nat) (hu : u < 160) :
    unit_enabled (open_btc_unit_single_mask i) u = decide (u = i % 160) := by
  have hj : i % 160 < 160 := Nat.mod_lt _ (by decide)
  unfold open_btc_unit_single_mask
  generalize i % 160 = j at hj ⊢
  obtain ⟨q, hq⟩ : ∃ q, u / 32 = q := ⟨_, rfl⟩
  obtain ⟨p, hp⟩ : ∃ p, j / 32 = p := ⟨_, rfl⟩
  have hq5 : q < 5 := by omega
  have hp5 : p < 5 := by omega
  have e : (0 + 2 ^ (j % 32)) % 2 ^ 32 = 2 ^ (j % 32) := by
    rw [Nat.zero_add]
    exact Nat.mod_eq_of_lt (Nat.pow_lt_pow_right (by decide) (Nat.mod_lt _ (by decide)))
  unfold unit_enabled
  simp only [hq, hp]
  interval_cases p <;> interval_cases q <;>
    simp only [modify_at, e, List.getD_cons_zero, List.getD_cons_succ, Nat.zero_testBit,
      Nat.testBit_two_pow, decide_eq_decide, Bool.false_eq, decide_eq_false_iff_not] <;> omega

theorem single_mask_count (i : Nat) : units_enabled (open_btc_unit_single_mask i) = 1 := by
  unfold units_enabled
  rw [List.filter_congr (q := fun u => decide (u = i % 160))
    (fun u hu => single_mask_bits i u (List.mem_range.mp hu)), range_filter_eq,
    if_pos (Nat.mod_lt _ (by decide))]

theorem single_mask_length (i : Nat) : (open_btc_unit_single_mask i).length = 5 := by
  have hj : i % 160 < 160 := Nat.mod_lt _ (by decide)
  unfold open_btc_unit_single_mask
  generalize i % 160 = j at hj ⊢
  obtain ⟨p, hp⟩ : ∃ p, j / 32 = p := ⟨_, rfl⟩
  have hp5 : p < 5 := by omega
  simp only [hp]
  interval_cases p <;> rfl

theorem number_in_range (s : String) (n : Nat) (hs : atoi s = (n : Int)) (h : n ≤ 160) :
    open_btc_unit_number (some s) = (n : Int) := by
  unfold open_btc_unit_number
  simp only [hs]
  rw [if_pos ⟨by omega, by omega⟩]

theorem number_out_of_range (s : String) (h : atoi s > 160 ∨ atoi s < 0) :
    open_btc_unit_number (some s) = 70 := by
  unfold open_btc_unit_number
  simp only
  rw [if_neg (by omega)]

theorem mask_in_range (s : String) (n : Nat) (hs : atoi s = (n : Int)) (h : n ≤ 160) :
    open_btc_unit_mask (some s) = btc_group_fill [0, 0, 0, 0, 0] n := by
  unfold open_btc_unit_mask
  rw [number_in_range s n hs h, Int.toNat_ofNat]

theorem mask_out_of_range (s : String) (h : atoi s > 160 ∨ atoi s < 0) :
    open_btc_unit_mask (some s) = btc_group_fill [0, 0, 0, 0, 0] 70 := by
  unfold open_btc_unit_mask
  rw [number_out_of_range s h]
  rfl

theorem open_btc_unit_wire (le : Bool) (st : State) (opt : Option String) :
    (gc3355_open_btc_unit le st opt).wire = st.wire ++
      rows_frames (btc_gating_render le (open_btc_unit_mask opt) btc_gating_rows 20) := by
  simp only [gc3355_open_btc_unit, open_btc_unit_rows, btc_gating_write_wire]

theorem open_btc_unit_single_wire (le : Bool) (st : State) (i : Nat) :
    (gc3355_open_btc_unit_single le st i).wire = st.wire ++
      rows_frames (btc_gating_render le (open_btc_unit_single_mask i) btc_gating_rows 20) := by
  simp only [gc3355_open_btc_unit_single, btc_gating_write_wire]

/-! ## Unit gating -/

/-- C4: for a count string parsing to n with 1 ≤ n ≤ 160, `gc3355_open_btc_unit` builds a
mask of 5 words of 32 bits in which unit u is enabled exactly when u < n, so exactly n
units are enabled, and it writes exactly 5 frames, in slot order: frame k is 55 AA EF
followed by the slot byte 2 + k and the four bytes of word k as seen through `c8`. -/
theorem C4_bulk_unit_gating (le : Bool) (st : State) (s : String) (n : Nat)
    (hs : atoi s = (n : Int)) (h1 : 1 ≤ n) (h2 : n ≤ 160) :
    (open_btc_unit_mask (some s)).length = 5 ∧
    (∀ w ∈ open_btc_unit_mask (some s), w < 2 ^ 32) ∧
    (∀ u, u < 160 → unit_enabled (open_btc_unit_mask (some s)) u = decide (u < n)) ∧
    units_enabled (open_btc_unit_mask (some s)) = n ∧
    (gc3355_open_btc_unit le st (some s)).wire = st.wire ++
      [[0x55, 0xAA, 0xEF, 2, c8 le (open_btc_unit_mask (some s)) 0, c8 le (open_btc_unit_mask (some s)) 1, c8 le (open_btc_unit_mask (some s)) 2, c8 le (open_btc_unit_mask (some s)) 3],
       [0x55, 0xAA, 0xEF, 3, c8 le (open_btc_unit_mask (some s)) 4, c8 le (open_btc_unit_mask (some s)) 5, c8 le (open_btc_unit_mask (some s)) 6, c8 le (open_btc_unit_mask (some s)) 7],
       [0x55, 0xAA, 0xEF, 4, c8 le (open_btc_unit_mask (some s)) 8, c8 le (open_btc_unit_mask (some s)) 9, c8 le (open_btc_unit_mask (some s)) 10, c8 le (open_btc_unit_mask (some s)) 11],
       [0x55, 0xAA, 0xEF, 5, c8 le (open_btc_unit_mask (some s)) 12, c8 le (open_btc_unit_mask (some s)) 13, c8 le (open_btc_unit_mask (some s)) 14, c8 le (open_btc_unit_mask (some s)) 15],
       [0x55, 0xAA, 0xEF, 6, c8 le (open_btc_unit_mask (some s)) 16, c8 le (open_btc_unit_mask (some s)) 17, c8 le (open_btc_unit_mask (some s)) 18, c8 le (open_btc_unit_mask (some s)) 19]] := by
  have hn : n < 161 := by omega
  refine ⟨?_, ?_, ?_, ?_, ?_⟩
  · rw [mask_in_range s n hs h2]; exact fill_length n hn
  · rw [mask_in_range s n hs h2]; exact fill_word_lt n hn
  · rw [mask_in_range s n hs h2]; exact fun u hu => fill_bits n hn u hu
  · rw [mask_in_range s n hs h2]; exact fill_count n hn
  · rw [open_btc_unit_wire, render_frames]

/-- Witness for C4: the count string "70" on a little-endian host. -/
theorem C4_bulk_unit_gating_witness :
    atoi "70" = ((70 : Nat) : Int) ∧ 1 ≤ 70 ∧ 70 ≤ 160 ∧
    ((open_btc_unit_mask (some "70")).length = 5 ∧
    (∀ w ∈ open_btc_unit_mask (some "70"), w < 2 ^ 32) ∧
    (∀ u, u < 160 → unit_enabled (open_btc_unit_mask (some "70")) u = decide (u < 70)) ∧
    units_enabled (open_btc_unit_mask (some "70")) = 70 ∧
    (gc3355_open_btc_unit true (initial_state false 0) (some "70")).wire =
      (initial_state false 0).wire ++
      [[0x55, 0xAA, 0xEF, 2, c8 true (open_btc_unit_mask (some "70")) 0, c8 true (open_btc_unit_mask (some "70")) 1, c8 true (open_btc_unit_mask (some "70")) 2, c8 true (open_btc_unit_mask (some "70")) 3],
       [0x55, 0xAA, 0xEF, 3, c8 true (open_btc_unit_mask (some "70")) 4, c8 true (open_btc_unit_mask (some "70")) 5, c8 true (open_btc_unit_mask (some "70")) 6, c8 true (open_btc_unit_mask (some "70")) 7],
       [0x55, 0xAA, 0xEF, 4, c8 true (open_btc_unit_mask (some "70")) 8, c8 true (open_btc_unit_mask (some "70")) 9, c8 true (open_btc_unit_mask (some "70")) 10, c8 true (open_btc_unit_mask (some "70")) 11],
       [0x55, 0xAA, 0xEF, 5, c8 true (open_btc_unit_mask (some "70")) 12, c8 true (open_btc_unit_mask (some "70")) 13, c8 true (open_btc_unit_mask (some "70")) 14, c8 true (open_btc_unit_mask (some "70")) 15],
       [0x55, 0xAA, 0xEF, 6, c8 true (open_btc_unit_mask (some "70")) 16, c8 true (open_btc_unit_mask (some "70")) 17, c8 true (open_btc_unit_mask (some "70")) 18, c8 true (open_btc_unit_mask (some "70")) 19]]) :=
  ⟨by decide, by decide, by decide,
    C4_bulk_unit_gating true (initial_state false 0) "70" 70 (by decide) (by decide)
      (by decide)⟩

/-- C5 as stated fails: for the count string "10" word 0 of the mask is 0x3FF, and the
first rendered command is `55AAEF02ff030000` on a little-endian host and
`55AAEF02000003ff` on a big-endian host; neither is `55AAEF02000003FF`, the slot prefix
followed by the 8 upper-case hex digits of the word, and both contain the lower-case
letter `f` (code 102). -/
theorem C5_counterexample :
    atoi "10" = 10 ∧
    (open_btc_unit_mask (some "10")).getD 0 0 = 0x3FF ∧
    ((open_btc_unit_rows true (some "10")).map cstr).getD 0 [] = chars "55AAEF02ff030000" ∧
    ((open_btc_unit_rows false (some "10")).map cstr).getD 0 [] = chars "55AAEF02000003ff" ∧
    (∀ le : Bool, ((open_btc_unit_rows le (some "10")).map cstr).getD 0 [] ≠
      chars "55AAEF02000003FF") ∧
    (∀ le : Bool, 102 ∈ ((open_btc_unit_rows le (some "10")).map cstr).getD 0 []) := by
  decide!

/-- C5, amended: for a count string parsing to n with n ≤ 160, the 5 commands rendered by
`gc3355_open_btc_unit` are the slot prefixes 55AAEF02 .. 55AAEF06, each followed by two
hex digits in lower case (as the `x` conversion prints them) for each of the four bytes
of that word in the order of the `c8` view; every command has 16 characters, the last 8
of them among 0-9 and a-f. -/
theorem C5_mask_rendering (le : Bool) (s : String) (n : Nat) (hs : atoi s = (n : Int))
    (h : n ≤ 160) :
    (open_btc_unit_rows le (some s)).map cstr =
      [chars "55AAEF02" ++
        [hexdigit (c8 le (open_btc_unit_mask (some s)) 0 / 16), hexdigit (c8 le (open_btc_unit_mask (some s)) 0 % 16),
         hexdigit (c8 le (open_btc_unit_mask (some s)) 1 / 16), hexdigit (c8 le (open_btc_unit_mask (some s)) 1 % 16),
         hexdigit (c8 le (open_btc_unit_mask (some s)) 2 / 16), hexdigit (c8 le (open_btc_unit_mask (some s)) 2 % 16),
         hexdigit (c8 le (open_btc_unit_mask (some s)) 3 / 16), hexdigit (c8 le (open_btc_unit_mask (some s)) 3 % 16)],
      chars "55AAEF03" ++
        [hexdigit (c8 le (open_btc_unit_mask (some s)) 4 / 16), hexdigit (c8 le (open_btc_unit_mask (some s)) 4 % 16),
         hexdigit (c8 le (open_btc_unit_mask (some s)) 5 / 16), hexdigit (c8 le (open_btc_unit_mask (some s)) 5 % 16),
         hexdigit (c8 le (open_btc_unit_mask (some s)) 6 / 16), hexdigit (c8 le (open_btc_unit_mask (some s)) 6 % 16),
         hexdigit (c8 le (open_btc_unit_mask (some s)) 7 / 16), hexdigit (c8 le (open_btc_unit_mask (some s)) 7 % 16)],
      chars "55AAEF04" ++
        [hexdigit (c8 le (open_btc_unit_mask (some s)) 8 / 16), hexdigit (c8 le (open_btc_unit_mask (some s)) 8 % 16),
         hexdigit (c8 le (open_btc_unit_mask (some s)) 9 / 16), hexdigit (c8 le (open_btc_unit_mask (some s)) 9 % 16),
         hexdigit (c8 le (open_btc_unit_mask (some s)) 10 / 16), hexdigit (c8 le (open_btc_unit_mask (some s)) 10 % 16),
         hexdigit (c8 le (open_btc_unit_mask (some s)) 11 / 16), hexdigit (c8 le (open_btc_unit_mask (some s)) 11 % 16)],
      chars "55AAEF05" ++
        [hexdigit (c8 le (open_btc_unit_mask (some s)) 12 / 16), hexdigit (c8 le (open_btc_unit_mask (some s)) 12 % 16),
         hexdigit (c8 le (open_btc_unit_mask (some s)) 13 / 16), hexdigit (c8 le (open_btc_unit_mask (some s)) 13 % 16),
         hexdigit (c8 le (open_btc_unit_mask (some s)) 14 / 16), hexdigit (c8 le (open_btc_unit_mask (some s)) 14 % 16),
         hexdigit (c8 le (open_btc_unit_mask (some s)) 15 / 16), hexdigit (c8 le (open_btc_unit_mask (some s)) 15 % 16)],
      chars "55AAEF06" ++
        [hexdigit (c8 le (open_btc_unit_mask (some s)) 16 / 16), hexdigit (c8 le (open_btc_unit_mask (some s)) 16 % 16),
         hexdigit (c8 le (open_btc_unit_mask (some s)) 17 / 16), hexdigit (c8 le (open_btc_unit_mask (some s)) 17 % 16),
         hexdigit (c8 le (open_btc_unit_mask (some s)) 18 / 16), hexdigit (c8 le (open_btc_unit_mask (some s)) 18 % 16),
         hexdigit (c8 le (open_btc_unit_mask (some s)) 19 / 16), hexdigit (c8 le (open_btc_unit_mask (some s)) 19 % 16)]] ∧
    (∀ r ∈ (open_btc_unit_rows le (some s)).map cstr, r.length = 16 ∧
      ∀ c ∈ r.drop 8, (48 ≤ c ∧ c ≤ 57) ∨ (97 ≤ c ∧ c ≤ 102)) := by
  have key : (open_btc_unit_rows le (some s)).map cstr =
      [chars "55AAEF02" ++
        [hexdigit (c8 le (open_btc_unit_mask (some s)) 0 / 16), hexdigit (c8 le (open_btc_unit_mask (some s)) 0 % 16),
         hexdigit (c8 le (open_btc_unit_mask (some s)) 1 / 16), hexdigit (c8 le (open_btc_unit_mask (some s)) 1 % 16),
         hexdigit (c8 le (open_btc_unit_mask (some s)) 2 / 16), hexdigit (c8 le (open_btc_unit_mask (some s)) 2 % 16),
         hexdigit (c8 le (open_btc_unit_mask (some s)) 3 / 16), hexdigit (c8 le (open_btc_unit_mask (some s)) 3 % 16)],
      chars "55AAEF03" ++
        [hexdigit (c8 le (open_btc_unit_mask (some s)) 4 / 16), hexdigit (c8 le (open_btc_unit_mask (some s)) 4 % 16),
         hexdigit (c8 le (open_btc_unit_mask (some s)) 5 / 16), hexdigit (c8 le (open_btc_unit_mask (some s)) 5 % 16),
         hexdigit (c8 le (open_btc_unit_mask (some s)) 6 / 16), hexdigit (c8 le (open_btc_unit_mask (some s)) 6 % 16),
         hexdigit (c8 le (open_btc_unit_mask (some s)) 7 / 16), hexdigit (c8 le (open_btc_unit_mask (some s)) 7 % 16)],
      chars "55AAEF04" ++
        [hexdigit (c8 le (open_btc_unit_mask (some s)) 8 / 16), hexdigit (c8 le (open_btc_unit_mask (some s)) 8 % 16),
         hexdigit (c8 le (open_btc_unit_mask (some s)) 9 / 16), hexdigit (c8 le (open_btc_unit_mask (some s)) 9 % 16),
         hexdigit (c8 le (open_btc_unit_mask (some s)) 10 / 16), hexdigit (c8 le (open_btc_unit_mask (some s)) 10 % 16),
         hexdigit (c8 le (open_btc_unit_mask (some s)) 11 / 16), hexdigit (c8 le (open_btc_unit_mask (some s)) 11 % 16)],
      chars "55AAEF05" ++
        [hexdigit (c8 le (open_btc_unit_mask (some s)) 12 / 16), hexdigit (c8 le (open_btc_unit_mask (some s)) 12 % 16),
         hexdigit (c8 le (open_btc_unit_mask (some s)) 13 / 16), hexdigit (c8 le (open_btc_unit_mask (some s)) 13 % 16),
         hexdigit (c8 le (open_btc_unit_mask (some s)) 14 / 16), hexdigit (c8 le (open_btc_unit_mask (some s)) 14 % 16),
         hexdigit (c8 le (open_btc_unit_mask (some s)) 15 / 16), hexdigit (c8 le (open_btc_unit_mask (some s)) 15 % 16)],
      chars "55AAEF06" ++
        [hexdigit (c8 le (open_btc_unit_mask (some s)) 16 / 16), hexdigit (c8 le (open_btc_unit_mask (some s)) 16 % 16),
         hexdigit (c8 le (open_btc_unit_mask (some s)) 17 / 16), hexdigit (c8 le (open_btc_unit_mask (some s)) 17 % 16),
         hexdigit (c8 le (open_btc_unit_mask (some s)) 18 / 16), hexdigit (c8 le (open_btc_unit_mask (some s)) 18 % 16),
         hexdigit (c8 le (open_btc_unit_mask (some s)) 19 / 16), hexdigit (c8 le (open_btc_unit_mask (some s)) 19 % 16)]] := by
    unfold open_btc_unit_rows
    rw [mask_in_range s n hs h, render_rows]
    simp only [List.map_cons, List.map_nil]
    have c2 : chars "55AAEF02" = [53, 53, 65, 65, 69, 70, 48, 50] := by decide
    have c3 : chars "55AAEF03" = [53, 53, 65, 65, 69, 70, 48, 51] := by decide
    have c4 : chars "55AAEF04" = [53, 53, 65, 65, 69, 70, 48, 52] := by decide
    have c5 : chars "55AAEF05" = [53, 53, 65, 65, 69, 70, 48, 53] := by decide
    have c6 : chars "55AAEF06" = [53, 53, 65, 65, 69, 70, 48, 54] := by decide
    rw [c2, c3, c4, c5, c6]
    simp only [List.cons_append, List.nil_append]
    rw [cstr_generic _ _ _ _ _ _ _ _ _ (by decide) (hexdigit_ne_zero _) (hexdigit_ne_zero _)
        (hexdigit_ne_zero _) (hexdigit_ne_zero _) (hexdigit_ne_zero _) (hexdigit_ne_zero _)
        (hexdigit_ne_zero _) (hexdigit_ne_zero _),
      cstr_generic _ _ _ _ _ _ _ _ _ (by decide) (hexdigit_ne_zero _) (hexdigit_ne_zero _)
        (hexdigit_ne_zero _) (hexdigit_ne_zero _) (hexdigit_ne_zero _) (hexdigit_ne_zero _)
        (hexdigit_ne_zero _) (hexdigit_ne_zero _),
      cstr_generic _ _ _ _ _ _ _ _ _ (by decide) (hexdigit_ne_zero _) (hexdigit_ne_zero _)
        (hexdigit_ne_zero _) (hexdigit_ne_zero _) (hexdigit_ne_zero _) (hexdigit_ne_zero _)
        (hexdigit_ne_zero _) (hexdigit_ne_zero _),
      cstr_generic _ _ _ _ _ _ _ _ _ (by decide) (hexdigit_ne_zero _) (hexdigit_ne_zero _)
        (hexdigit_ne_zero _) (hexdigit_ne_zero _) (hexdigit_ne_zero _) (hexdigit_ne_zero _)
        (hexdigit_ne_zero _) (hexdigit_ne_zero _),
      cstr_generic _ _ _ _ _ _ _ _ _ (by decide) (hexdigit_ne_zero _) (hexdigit_ne_zero _)
        (hexdigit_ne_zero _) (hexdigit_ne_zero _) (hexdigit_ne_zero _) (hexdigit_ne_zero _)
        (hexdigit_ne_zero _) (hexdigit_ne_zero _)]
  refine ⟨key, ?_⟩
  have hd : ∀ b : Nat, b < 256 →
      ((48 ≤ hexdigit (b / 16) ∧ hexdigit (b / 16) ≤ 57) ∨
        (97 ≤ hexdigit (b / 16) ∧ hexdigit (b / 16) ≤ 102)) ∧
      ((48 ≤ hexdigit (b % 16) ∧ hexdigit (b % 16) ≤ 57) ∨
        (97 ≤ hexdigit (b % 16) ∧ hexdigit (b % 16) ≤ 102)) := by
    intro b hb
    unfold hexdigit
    constructor <;> split <;> omega
  have hrow : ∀ (p : List Nat) (b0 b1 b2 b3 : Nat), p.length = 8 → b0 < 256 → b1 < 256 →
      b2 < 256 → b3 < 256 →
      (p ++ [hexdigit (b0 / 16), hexdigit (b0 % 16), hexdigit (b1 / 16), hexdigit (b1 % 16),
        hexdigit (b2 / 16), hexdigit (b2 % 16), hexdigit (b3 / 16),
        hexdigit (b3 % 16)]).length = 16 ∧
      ∀ c ∈ (p ++ [hexdigit (b0 / 16), hexdigit (b0 % 16), hexdigit (b1 / 16),
        hexdigit (b1 % 16), hexdigit (b2 / 16), hexdigit (b2 % 16), hexdigit (b3 / 16),
        hexdigit (b3 % 16)]).drop 8, (48 ≤ c ∧ c ≤ 57) ∨ (97 ≤ c ∧ c ≤ 102) := by
    intro p b0 b1 b2 b3 hp l0 l1 l2 l3
    refine ⟨by simp [hp], ?_⟩
    rw [List.drop_append_of_le_length (by omega), ← hp, List.drop_length, List.nil_append]
    intro c hc
    simp only [List.mem_cons, List.mem_nil_iff, or_false] at hc
    rcases hc with h | h | h | h | h | h | h | h <;> rw [h]
    · exact (hd b0 l0).1
    · exact (hd b0 l0).2
    · exact (hd b1 l1).1
    · exact (hd b1 l1).2
    · exact (hd b2 l2).1
    · exact (hd b2 l2).2
    · exact (hd b3 l3).1
    · exact (hd b3 l3).2
  intro r hr
  rw [key] at hr
  simp only [List.mem_cons, List.mem_nil_iff, or_false] at hr
  rcases hr with h | h | h | h | h <;> rw [h] <;>
    exact hrow _ _ _ _ _ (by decide) (c8_lt _ _ _) (c8_lt _ _ _) (c8_lt _ _ _) (c8_lt _ _ _)

/-- Witness for C5: the count string "10" on a little-endian host. -/
theorem C5_mask_rendering_witness :
    atoi "10" = ((10 : Nat) : Int) ∧ 10 ≤ 160 ∧
    ((open_btc_unit_rows true (some "10")).map cstr =
      [chars "55AAEF02" ++
        [hexdigit (c8 true (open_btc_unit_mask (some "10")) 0 / 16), hexdigit (c8 true (open_btc_unit_mask (some "10")) 0 % 16),
         hexdigit (c8 true (open_btc_unit_mask (some "10")) 1 / 16), hexdigit (c8 true (open_btc_unit_mask (some "10")) 1 % 16),
         hexdigit (c8 true (open_btc_unit_mask (some "10")) 2 / 16), hexdigit (c8 true (open_btc_unit_mask (some "10")) 2 % 16),
         hexdigit (c8 true (open_btc_unit_mask (some "10")) 3 / 16), hexdigit (c8 true (open_btc_unit_mask (some "10")) 3 % 16)],
      chars "55AAEF03" ++
        [hexdigit (c8 true (open_btc_unit_mask (some "10")) 4 / 16), hexdigit (c8 true (open_btc_unit_mask (some "10")) 4 % 16),
         hexdigit (c8 true (open_btc_unit_mask (some "10")) 5 / 16), hexdigit (c8 true (open_btc_unit_mask (some "10")) 5 % 16),
         hexdigit (c8 true (open_btc_unit_mask (some "10")) 6 / 16), hexdigit (c8 true (open_btc_unit_mask (some "10")) 6 % 16),
         hexdigit (c8 true (open_btc_unit_mask (some "10")) 7 / 16), hexdigit (c8 true (open_btc_unit_mask (some "10")) 7 % 16)],
      chars "55AAEF04" ++
        [hexdigit (c8 true (open_btc_unit_mask (some "10")) 8 / 16), hexdigit (c8 true (open_btc_unit_mask (some "10")) 8 % 16),
         hexdigit (c8 true (open_btc_unit_mask (some "10")) 9 / 16), hexdigit (c8 true (open_btc_unit_mask (some "10")) 9 % 16),
         hexdigit (c8 true (open_btc_unit_mask (some "10")) 10 / 16), hexdigit (c8 true (open_btc_unit_mask (some "10")) 10 % 16),
         hexdigit (c8 true (open_btc_unit_mask (some "10")) 11 / 16), hexdigit (c8 true (open_btc_unit_mask (some "10")) 11 % 16)],
      chars "55AAEF05" ++
        [hexdigit (c8 true (open_btc_unit_mask (some "10")) 12 / 16), hexdigit (c8 true (open_btc_unit_mask (some "10")) 12 % 16),
         hexdigit (c8 true (open_btc_unit_mask (some "10")) 13 / 16), hexdigit (c8 true (open_btc_unit_mask (some "10")) 13 % 16),
         hexdigit (c8 true (open_btc_unit_mask (some "10")) 14 / 16), hexdigit (c8 true (open_btc_unit_mask (some "10")) 14 % 16),
         hexdigit (c8 true (open_btc_unit_mask (some "10")) 15 / 16), hexdigit (c8 true (open_btc_unit_mask (some "10")) 15 % 16)],
      chars "55AAEF06" ++
        [hexdigit (c8 true (open_btc_unit_mask (some "10")) 16 / 16), hexdigit (c8 true (open_btc_unit_mask (some "10")) 16 % 16),
         hexdigit (c8 true (open_btc_unit_mask (some "10")) 17 / 16), hexdigit (c8 true (open_btc_unit_mask (some "10")) 17 % 16),
         hexdigit (c8 true (open_btc_unit_mask (some "10")) 18 / 16), hexdigit (c8 true (open_btc_unit_mask (some "10")) 18 % 16),
         hexdigit (c8 true (open_btc_unit_mask (some "10")) 19 / 16), hexdigit (c8 true (open_btc_unit_mask (some "10")) 19 % 16)]] ∧
    (∀ r ∈ (open_btc_unit_rows true (some "10")).map cstr, r.length = 16 ∧
      ∀ c ∈ r.drop 8, (48 ≤ c ∧ c ≤ 57) ∨ (97 ≤ c ∧ c ≤ 102))) :=
  ⟨by decide, by decide, C5_mask_rendering true "10" 10 (by decide) (by decide)⟩

/-- C6 as stated fails: the count strings "161" and "-1" are not clamped to 160 and 0;
for both `gc3355_open_btc_unit` takes the default count 70, enables 70 units and records
70 in `opt_btc_number`. -/
theorem C6_counterexample :
    atoi "161" = 161 ∧
    open_btc_unit_number (some "161") = 70 ∧
    units_enabled (open_btc_unit_mask (some "161")) = 70 ∧
    (gc3355_open_btc_unit true (initial_state false 0) (some "161")).opt_btc_number = 70 ∧
    atoi "-1" = -1 ∧
    open_btc_unit_number (some "-1") = 70 ∧
    units_enabled (open_btc_unit_mask (some "-1")) = 70 ∧
    (gc3355_open_btc_unit true (initial_state false 0) (some "-1")).opt_btc_number = 70 := by
  decide!

/-- C6, amended: for every count string, parsing to n, `gc3355_open_btc_unit` uses n
itself when 0 ≤ n ≤ 160 and the default count 70 otherwise; with that count, unit u is
enabled exactly when u is below it, that many units are enabled, and the count is recorded
in `opt_btc_number`. -/
theorem C6_count_or_default (le : Bool) (st : State) (s : String) :
    open_btc_unit_number (some s) = (if 0 ≤ atoi s ∧ atoi s ≤ 160 then atoi s else 70) ∧
    (∀ u, u < 160 → unit_enabled (open_btc_unit_mask (some s)) u =
      decide ((u : Int) < open_btc_unit_number (some s))) ∧
    (units_enabled (open_btc_unit_mask (some s)) : Int) = open_btc_unit_number (some s) ∧
    (gc3355_open_btc_unit le st (some s)).opt_btc_number = open_btc_unit_number (some s) := by
  have hrec : (gc3355_open_btc_unit le st (some s)).opt_btc_number =
      open_btc_unit_number (some s) := rfl
  rw [hrec]
  by_cases hr : 0 ≤ atoi s ∧ atoi s ≤ 160
  · obtain ⟨n, hn⟩ : ∃ n : Nat, atoi s = (n : Int) := ⟨(atoi s).toNat, by omega⟩
    have h160 : n ≤ 160 := by omega
    rw [mask_in_range s n hn h160, number_in_range s n hn h160, if_pos hr, hn]
    refine ⟨rfl, fun u hu => ?_, ?_, rfl⟩
    · rw [fill_bits n (by omega) u hu]
      simp only [Nat.cast_lt]
    · rw [fill_count n (by omega)]
  · have h : atoi s > 160 ∨ atoi s < 0 := by omega
    rw [mask_out_of_range s h, number_out_of_range s h, if_neg hr]
    refine ⟨rfl, fun u hu => ?_, ?_, rfl⟩
    · rw [fill_bits 70 (by decide) u hu]
      exact decide_eq_decide.mpr (by omega)
    · rw [fill_count 70 (by decide)]
      rfl

/-- C7 at the failing inputs: for the count string "1" the incremental path writes two
unit-open commands, `55AAEF0200000001` and `55AAEF0200000003`, the second of which
enables units 0 and 1, and records 1 in `opt_btc_number`; for "160" it writes 161 frames,
the last of them eight zero bytes decoded from the table's empty sentinel. -/
theorem C7_code_at_failing_input :
    atoi "1" = 1 ∧
    (gc3355_open_btc_unit_one_by_one (initial_state false 0) "1").wire =
      [frame (chars "55AAEF0200000001"), frame (chars "55AAEF0200000003")] ∧
    (gc3355_open_btc_unit_one_by_one (initial_state false 0) "1").wire =
      [[0x55, 0xAA, 0xEF, 0x02, 0, 0, 0, 1], [0x55, 0xAA, 0xEF, 0x02, 0, 0, 0, 3]] ∧
    (gc3355_open_btc_unit_one_by_one (initial_state false 0) "1").opt_btc_number = 1 ∧
    atoi "160" = 160 ∧
    (gc3355_open_btc_unit_one_by_one (initial_state false 0) "160").wire.length = 161 ∧
    (gc3355_open_btc_unit_one_by_one (initial_state false 0) "160").wire.getLast? =
      some [0, 0, 0, 0, 0, 0, 0, 0] := by
  decide!

/-- C8: for a count string parsing to a value n ≤ 0, `gc3355_open_btc_unit_one_by_one`
writes exactly the five all-gates-closed commands, in order, and none of the frames it
writes is a unit-open command of the incremental table. -/
theorem C8_count_zero_closes_gates (st : State) (s : String) (h : atoi s ≤ 0) :
    (gc3355_open_btc_unit_one_by_one st s).wire = st.wire ++
      [frame (chars "55AAEF0200000000"), frame (chars "55AAEF0300000000"),
       frame (chars "55AAEF0400000000"), frame (chars "55AAEF0500000000"),
       frame (chars "55AAEF0600000000")] ∧
    (gc3355_open_btc_unit_one_by_one st s).wire = st.wire ++
      [[0x55, 0xAA, 0xEF, 0x02, 0, 0, 0, 0], [0x55, 0xAA, 0xEF, 0x03, 0, 0, 0, 0],
       [0x55, 0xAA, 0xEF, 0x04, 0, 0, 0, 0], [0x55, 0xAA, 0xEF, 0x05, 0, 0, 0, 0],
       [0x55, 0xAA, 0xEF, 0x06, 0, 0, 0, 0]] ∧
    (∀ c ∈ btc_single_open, c ≠ "" →
      frame (chars c) ∉ (gc3355_open_btc_unit_one_by_one st s).wire.drop st.wire.length) := by
  have hw : (gc3355_open_btc_unit_one_by_one st s).wire = st.wire ++ send_frames btc_gating := by
    have e1 : (if atoi s < 0 then (0 : Int) else atoi s) = 0 := by split <;> omega
    simp [gc3355_open_btc_unit_one_by_one, e1, send_cmds_wire]
  have hf : send_frames btc_gating =
      [frame (chars "55AAEF0200000000"), frame (chars "55AAEF0300000000"),
       frame (chars "55AAEF0400000000"), frame (chars "55AAEF0500000000"),
       frame (chars "55AAEF0600000000")] := by decide!
  have hb : send_frames btc_gating =
      [[0x55, 0xAA, 0xEF, 0x02, 0, 0, 0, 0], [0x55, 0xAA, 0xEF, 0x03, 0, 0, 0, 0],
       [0x55, 0xAA, 0xEF, 0x04, 0, 0, 0, 0], [0x55, 0xAA, 0xEF, 0x05, 0, 0, 0, 0],
       [0x55, 0xAA, 0xEF, 0x06, 0, 0, 0, 0]] := by decide!
  have hn : ∀ c ∈ btc_single_open, c ≠ "" → frame (chars c) ∉ send_frames btc_gating := by
    decide!
  refine ⟨by rw [hw, hf], by rw [hw, hb], ?_⟩
  rw [hw, List.drop_left]
  exact hn

/-- Witness for C8: the count string "-5". -/
theorem C8_count_zero_closes_gates_witness :
    atoi "-5" ≤ 0 ∧
    ((gc3355_open_btc_unit_one_by_one (initial_state false 0) "-5").wire =
      (initial_state false 0).wire ++
      [frame (chars "55AAEF0200000000"), frame (chars "55AAEF0300000000"),
       frame (chars "55AAEF0400000000"), frame (chars "55AAEF0500000000"),
       frame (chars "55AAEF0600000000")] ∧
    (gc3355_open_btc_unit_one_by_one (initial_state false 0) "-5").wire =
      (initial_state false 0).wire ++
      [[0x55, 0xAA, 0xEF, 0x02, 0, 0, 0, 0], [0x55, 0xAA, 0xEF, 0x03, 0, 0, 0, 0],
       [0x55, 0xAA, 0xEF, 0x04, 0, 0, 0, 0], [0x55, 0xAA, 0xEF, 0x05, 0, 0, 0, 0],
       [0x55, 0xAA, 0xEF, 0x06, 0, 0, 0, 0]] ∧
    (∀ c ∈ btc_single_open, c ≠ "" →
      frame (chars c) ∉ (gc3355_open_btc_unit_one_by_one (initial_state false 0) "-5").wire.drop
        (initial_state false 0).wire.length)) :=
  ⟨by decide, C8_count_zero_closes_gates (initial_state false 0) "-5" (by decide)⟩

theorem one_by_one_wire_pos (st : State) (s : String) (n : Nat) (hs : atoi s = (n : Int))
    (h1 : 1 ≤ n) (h2 : n ≤ 160) :
    (gc3355_open_btc_unit_one_by_one st s).wire = st.wire ++
      (List.range (n + 1)).map (fun i => frame (chars (btc_single_open.getD i ""))) := by
  have e1 : (if (n : Int) < 0 then (0 : Int) else (n : Int)) = (n : Int) := by
    rw [if_neg (by omega)]
  have e2 : (if (n : Int) > 160 then (160 : Int) else (n : Int)) = (n : Int) := by
    rw [if_neg (by omega)]
  have e3 : (n : Int) > 0 ∧ (n : Int) ≤ 160 := ⟨by omega, by omega⟩
  simp only [gc3355_open_btc_unit_one_by_one, hs, e1, e2, e3, and_self, if_true,
    Int.toNat_ofNat, one_by_one_loop_wire]

/-- C9: for every index i, `gc3355_open_btc_unit_single` builds a mask of 5 words in which
unit u is enabled exactly when u = i mod 160, so exactly one unit is enabled, and writes 5
frames, frame k being 55 AA EF, the slot byte 2 + k and the four bytes of word k; the
states reached for i = 0 and i = 160 are the same. -/
theorem C9_single_index_gating (le : Bool) (st : State) (i : Nat) :
    (open_btc_unit_single_mask i).length = 5 ∧
    (∀ u, u < 160 → unit_enabled (open_btc_unit_single_mask i) u = decide (u = i % 160)) ∧
    units_enabled (open_btc_unit_single_mask i) = 1 ∧
    (gc3355_open_btc_unit_single le st i).wire = st.wire ++
      [[0x55, 0xAA, 0xEF, 2, c8 le (open_btc_unit_single_mask i) 0, c8 le (open_btc_unit_single_mask i) 1, c8 le (open_btc_unit_single_mask i) 2, c8 le (open_btc_unit_single_mask i) 3],
       [0x55, 0xAA, 0xEF, 3, c8 le (open_btc_unit_single_mask i) 4, c8 le (open_btc_unit_single_mask i) 5, c8 le (open_btc_unit_single_mask i) 6, c8 le (open_btc_unit_single_mask i) 7],
       [0x55, 0xAA, 0xEF, 4, c8 le (open_btc_unit_single_mask i) 8, c8 le (open_btc_unit_single_mask i) 9, c8 le (open_btc_unit_single_mask i) 10, c8 le (open_btc_unit_single_mask i) 11],
       [0x55, 0xAA, 0xEF, 5, c8 le (open_btc_unit_single_mask i) 12, c8 le (open_btc_unit_single_mask i) 13, c8 le (open_btc_unit_single_mask i) 14, c8 le (open_btc_unit_single_mask i) 15],
       [0x55, 0xAA, 0xEF, 6, c8 le (open_btc_unit_single_mask i) 16, c8 le (open_btc_unit_single_mask i) 17, c8 le (open_btc_unit_single_mask i) 18, c8 le (open_btc_unit_single_mask i) 19]] ∧
    gc3355_open_btc_unit_single le st 160 = gc3355_open_btc_unit_single le st 0 := by
  refine ⟨single_mask_length i, fun u hu => single_mask_bits i u hu, single_mask_count i,
    ?_, ?_⟩
  · rw [open_btc_unit_single_wire, render_frames]
  · have e : open_btc_unit_single_mask 160 = open_btc_unit_single_mask 0 := by decide
    unfold gc3355_open_btc_unit_single
    rw [e]

/-! ## PLL frequency -/

/-- The frequencies with a `case` of their own in `gc3355_pll_freq_init2`. -/
theorem pll_switch_supported (f cts : Int)
    (h : f ∈ [400, 500, 550, 600, 650, 700, 750, 800, 850, 900, 950, 1000, 1100, 1200]) :
    pll_freq_switch f cts = pll_freq_switch f 0 := by
  simp only [List.mem_cons, List.mem_nil_iff, or_false] at h
  rcases h with h | h | h | h | h | h | h | h | h | h | h | h | h | h <;> subst h <;> rfl

theorem pll_supported_frames :
    ∀ f ∈ ([400, 500, 550, 600, 650, 700, 750, 800, 850, 900, 950, 1000, 1100, 1200] : List Int),
      (send_frames (pll_freq_switch f 0)).length = 2 := by
  decide!

theorem pll_second_injective :
    ∀ f ∈ ([400, 500, 550, 600, 650, 700, 750, 800, 850, 900, 950, 1000, 1100, 1200] : List Int),
    ∀ g ∈ ([400, 500, 550, 600, 650, 700, 750, 800, 850, 900, 950, 1000, 1100, 1200] : List Int),
      f ≠ g →
      (send_frames (pll_freq_switch f 0)).getD 1 [] ≠
        (send_frames (pll_freq_switch g 0)).getD 1 [] := by
  decide!

theorem pll_freq_init2_wire (st : State) (s : String) :
    (gc3355_pll_freq_init2 st (some s)).wire = st.wire ++
      send_frames (pll_freq_switch (atoi s) (gc3355_get_cts_status st)) := by
  simp only [gc3355_pll_freq_init2, send_cmds_wire]
  rfl

/-- C10: for frequency strings parsing to supported frequencies, `gc3355_pll_freq_init2`
appends exactly 2 frames to the wire, and for two distinct supported frequencies the
second frames differ (whatever the two states are). -/
theorem C10_frequency_table_injective (st1 st2 : State) (s1 s2 : String)
    (h1 : atoi s1 ∈
      ([400, 500, 550, 600, 650, 700, 750, 800, 850, 900, 950, 1000, 1100, 1200] : List Int))
    (h2 : atoi s2 ∈
      ([400, 500, 550, 600, 650, 700, 750, 800, 850, 900, 950, 1000, 1100, 1200] : List Int))
    (hne : atoi s1 ≠ atoi s2) :
    ((gc3355_pll_freq_init2 st1 (some s1)).wire.drop st1.wire.length).length = 2 ∧
    ((gc3355_pll_freq_init2 st2 (some s2)).wire.drop st2.wire.length).length = 2 ∧
    (gc3355_pll_freq_init2 st1 (some s1)).wire.take st1.wire.length = st1.wire ∧
    (gc3355_pll_freq_init2 st2 (some s2)).wire.take st2.wire.length = st2.wire ∧
    ((gc3355_pll_freq_init2 st1 (some s1)).wire.drop st1.wire.length).getD 1 [] ≠
      ((gc3355_pll_freq_init2 st2 (some s2)).wire.drop st2.wire.length).getD 1 [] := by
  rw [pll_freq_init2_wire, pll_freq_init2_wire, List.drop_left, List.drop_left,
    List.take_left, List.take_left, pll_switch_supported _ _ h1, pll_switch_supported _ _ h2]
  exact ⟨pll_supported_frames _ h1, pll_supported_frames _ h2, rfl, rfl,
    pll_second_injective _ h1 _ h2 hne⟩

/-- Witness for C10: the frequency strings "850" and "550" on a fresh device. -/
theorem C10_frequency_table_injective_witness :
    atoi "850" ∈
      ([400, 500, 550, 600, 650, 700, 750, 800, 850, 900, 950, 1000, 1100, 1200] : List Int) ∧
    atoi "550" ∈
      ([400, 500, 550, 600, 650, 700, 750, 800, 850, 900, 950, 1000, 1100, 1200] : List Int) ∧
    atoi "850" ≠ atoi "550" ∧
    (((gc3355_pll_freq_init2 (initial_state false 0) (some "850")).wire.drop
        (initial_state false 0).wire.length).length = 2 ∧
    ((gc3355_pll_freq_init2 (initial_state true 0x20) (some "550")).wire.drop
        (initial_state true 0x20).wire.length).length = 2 ∧
    (gc3355_pll_freq_init2 (initial_state false 0) (some "850")).wire.take
        (initial_state false 0).wire.length = (initial_state false 0).wire ∧
    (gc3355_pll_freq_init2 (initial_state true 0x20) (some "550")).wire.take
        (initial_state true 0x20).wire.length = (initial_state true 0x20).wire ∧
    ((gc3355_pll_freq_init2 (initial_state false 0) (some "850")).wire.drop
        (initial_state false 0).wire.length).getD 1 [] ≠
      ((gc3355_pll_freq_init2 (initial_state true 0x20) (some "550")).wire.drop
        (initial_state true 0x20).wire.length).getD 1 []) :=
  ⟨by decide, by decide, by decide,
    C10_frequency_table_injective (initial_state false 0) (initial_state true 0x20) "850" "550"
      (by decide) (by decide) (by decide)⟩

/-! ## States reached by the command senders -/

theorem send_cmds_eq (st : State) (cmds : List String) :
    gc3355_send_cmds st cmds = { st with wire := st.wire ++ send_frames cmds } := by
  induction cmds generalizing st with
  | nil => simp [gc3355_send_cmds, send_frames]
  | cons c cmds ih =>
    by_cases h : (chars c).isEmpty
    · simp [gc3355_send_cmds, send_frames, h]
    · simp [gc3355_send_cmds, send_frames, h, ih, icarus_write, frame]

theorem pll_freq_init2_eq (st : State) (pll_freq : Option String) :
    gc3355_pll_freq_init2 st pll_freq =
      { st with
        opt_pll_freq := parsed_freq pll_freq
        wire := st.wire ++
          send_frames (pll_freq_switch (parsed_freq pll_freq) (gc3355_get_cts_status st)) } := by
  cases pll_freq <;>
    simp [gc3355_pll_freq_init2, parsed_freq, send_cmds_eq, gc3355_get_cts_status]

theorem pll_switch_default (f cts : Int) (h : f ∉ supported_freqs) :
    pll_freq_switch f cts = if cts = 1 then pll_freq_850M_cmd else pll_freq_550M_cmd := by
  unfold supported_freqs at h
  rw [List.mem_cons, List.mem_cons, List.mem_cons, List.mem_cons, List.mem_cons,
    List.mem_cons, List.mem_cons, List.mem_cons, List.mem_cons, List.mem_cons,
    List.mem_cons, List.mem_cons, List.mem_cons, List.mem_cons] at h
  have h1 : f ≠ 400 := fun e => h (Or.inl e)
  have h2 : f ≠ 500 := fun e => h (Or.inr (Or.inl e))
  have h3 : f ≠ 550 := fun e => h (Or.inr (Or.inr (Or.inl e)))
  have h4 : f ≠ 600 := fun e => h (Or.inr (Or.inr (Or.inr (Or.inl e))))
  have h5 : f ≠ 650 := fun e => h (Or.inr (Or.inr (Or.inr (Or.inr (Or.inl e)))))
  have h6 : f ≠ 700 := fun e => h (Or.inr (Or.inr (Or.inr (Or.inr (Or.inr (Or.inl e))))))
  have h7 : f ≠ 750 := fun e =>
    h (Or.inr (Or.inr (Or.inr (Or.inr (Or.inr (Or.inr (Or.inl e)))))))
  have h8 : f ≠ 800 := fun e =>
    h (Or.inr (Or.inr (Or.inr (Or.inr (Or.inr (Or.inr (Or.inr (Or.inl e))))))))
  have h9 : f ≠ 850 := fun e =>
    h (Or.inr (Or.inr (Or.inr (Or.inr (Or.inr (Or.inr (Or.inr (Or.inr (Or.inl e)))))))))
  have h10 : f ≠ 900 := fun e =>
    h (Or.inr (Or.inr (Or.inr (Or.inr (Or.inr (Or.inr (Or.inr (Or.inr (Or.inr
      (Or.inl e))))))))))
  have h11 : f ≠ 950 := fun e =>
    h (Or.inr (Or.inr (Or.inr (Or.inr (Or.inr (Or.inr (Or.inr (Or.inr (Or.inr (Or.inr
      (Or.inl e)))))))))))
  have h12 : f ≠ 1000 := fun e =>
    h (Or.inr (Or.inr (Or.inr (Or.inr (Or.inr (Or.inr (Or.inr (Or.inr (Or.inr (Or.inr
      (Or.inr (Or.inl e))))))))))))
  have h13 : f ≠ 1100 := fun e =>
    h (Or.inr (Or.inr (Or.inr (Or.inr (Or.inr (Or.inr (Or.inr (Or.inr (Or.inr (Or.inr
      (Or.inr (Or.inr (Or.inl e)))))))))))))
  have h14 : f ≠ 1200 := fun e =>
    h (Or.inr (Or.inr (Or.inr (Or.inr (Or.inr (Or.inr (Or.inr (Or.inr (Or.inr (Or.inr
      (Or.inr (Or.inr (Or.inr (Or.inl e))))))))))))))
  unfold pll_freq_switch
  rw [if_neg h1, if_neg h2, if_neg h3, if_neg h4, if_neg h5, if_neg h6, if_neg h7, if_neg h8,
    if_neg h9, if_neg h10, if_neg h11, if_neg h12, if_neg h13, if_neg h14]

theorem ite_mem {α : Type} (c : Prop) [Decidable c] (a b : α) (l : List α) (ha : a ∈ l)
    (hb : b ∈ l) : (if c then a else b) ∈ l := by
  by_cases h : c
  · rw [if_pos h]; exact ha
  · rw [if_neg h]; exact hb

theorem pll_switch_mem (f cts : Int) : pll_freq_switch f cts ∈ pll_tables := by
  unfold pll_freq_switch
  refine ite_mem _ _ _ _ (by simp [pll_tables]) ?_
  refine ite_mem _ _ _ _ (by simp [pll_tables]) ?_
  refine ite_mem _ _ _ _ (by simp [pll_tables]) ?_
  refine ite_mem _ _ _ _ (by simp [pll_tables]) ?_
  refine ite_mem _ _ _ _ (by simp [pll_tables]) ?_
  refine ite_mem _ _ _ _ (by simp [pll_tables]) ?_
  refine ite_mem _ _ _ _ (by simp [pll_tables]) ?_
  refine ite_mem _ _ _ _ (by simp [pll_tables]) ?_
  refine ite_mem _ _ _ _ (by simp [pll_tables]) ?_
  refine ite_mem _ _ _ _ (by simp [pll_tables]) ?_
  refine ite_mem _ _ _ _ (by simp [pll_tables]) ?_
  refine ite_mem _ _ _ _ (by simp [pll_tables]) ?_
  refine ite_mem _ _ _ _ (by simp [pll_tables]) ?_
  refine ite_mem _ _ _ _ (by simp [pll_tables]) ?_
  exact ite_mem _ _ _ _ (by simp [pll_tables]) (by simp [pll_tables])

theorem pll_tables_frames : ∀ t ∈ pll_tables, (send_frames t).length = 2 := by
  decide!

theorem pll_frames_length (f cts : Int) : (send_frames (pll_freq_switch f cts)).length = 2 :=
  pll_tables_frames _ (pll_switch_mem f cts)

/-- C11: for a frequency input that is NULL or parses to a value outside the 14 supported
frequencies, `gc3355_pll_freq_init2` appends exactly the 850 MHz pair when the CTS status
is 1 (HighVoltage) and exactly the 550 MHz pair otherwise (LowVoltage). -/
theorem C11_frequency_fallback (st : State) (pll_freq : Option String)
    (h : ∀ s, pll_freq = some s → atoi s ∉ supported_freqs) :
    (gc3355_pll_freq_init2 st pll_freq).wire = st.wire ++
      (if gc3355_get_cts_status st = 1 then
        [frame (chars "55AAEF0005002084"), frame (chars "55AA0FFFD21C00C0")]
      else [frame (chars "55AAEF000500A082"), frame (chars "55AA0FFFA61200C0")]) ∧
    (gc3355_pll_freq_init2 st pll_freq).wire = st.wire ++
      (if gc3355_get_cts_status st = 1 then
        [[0x55, 0xAA, 0xEF, 0x00, 0x05, 0x00, 0x20, 0x84],
         [0x55, 0xAA, 0x0F, 0xFF, 0xD2, 0x1C, 0x00, 0xC0]]
      else
        [[0x55, 0xAA, 0xEF, 0x00, 0x05, 0x00, 0xA0, 0x82],
         [0x55, 0xAA, 0x0F, 0xFF, 0xA6, 0x12, 0x00, 0xC0]]) := by
  have hf : parsed_freq pll_freq ∉ supported_freqs := by
    cases pll_freq with
    | none => decide
    | some s => exact h s rfl
  have e850 : send_frames pll_freq_850M_cmd =
      [frame (chars "55AAEF0005002084"), frame (chars "55AA0FFFD21C00C0")] := by decide!
  have e550 : send_frames pll_freq_550M_cmd =
      [frame (chars "55AAEF000500A082"), frame (chars "55AA0FFFA61200C0")] := by decide!
  have b850 : send_frames pll_freq_850M_cmd =
      [[0x55, 0xAA, 0xEF, 0x00, 0x05, 0x00, 0x20, 0x84],
       [0x55, 0xAA, 0x0F, 0xFF, 0xD2, 0x1C, 0x00, 0xC0]] := by decide!
  have b550 : send_frames pll_freq_550M_cmd =
      [[0x55, 0xAA, 0xEF, 0x00, 0x05, 0x00, 0xA0, 0x82],
       [0x55, 0xAA, 0x0F, 0xFF, 0xA6, 0x12, 0x00, 0xC0]] := by decide!
  rw [pll_freq_init2_eq, pll_switch_default _ _ hf]
  by_cases hc : gc3355_get_cts_status st = 1
  · simp only [hc, if_true]
    exact ⟨by rw [e850], by rw [b850]⟩
  · simp only [hc, if_false]
    exact ⟨by rw [e550], by rw [b550]⟩

/-- Witness for C11: the unsupported frequency string "1234" on a device whose status word
has bit 0x20 set. -/
theorem C11_frequency_fallback_witness :
    (∀ s, some "1234" = some s → atoi s ∉ supported_freqs) ∧
    ((gc3355_pll_freq_init2 (initial_state false 0x20) (some "1234")).wire =
      (initial_state false 0x20).wire ++
      (if gc3355_get_cts_status (initial_state false 0x20) = 1 then
        [frame (chars "55AAEF0005002084"), frame (chars "55AA0FFFD21C00C0")]
      else [frame (chars "55AAEF000500A082"), frame (chars "55AA0FFFA61200C0")]) ∧
    (gc3355_pll_freq_init2 (initial_state false 0x20) (some "1234")).wire =
      (initial_state false 0x20).wire ++
      (if gc3355_get_cts_status (initial_state false 0x20) = 1 then
        [[0x55, 0xAA, 0xEF, 0x00, 0x05, 0x00, 0x20, 0x84],
         [0x55, 0xAA, 0x0F, 0xFF, 0xD2, 0x1C, 0x00, 0xC0]]
      else
        [[0x55, 0xAA, 0xEF, 0x00, 0x05, 0x00, 0xA0, 0x82],
         [0x55, 0xAA, 0x0F, 0xFF, 0xA6, 0x12, 0x00, 0xC0]])) :=
  ⟨fun s hs => by cases hs; decide,
    C11_frequency_fallback (initial_state false 0x20) (some "1234")
      (fun s hs => by cases hs; decide)⟩

/-! ## Init sequences -/

theorem init_ltc_only_frames : send_frames init_ltc_only_ob =
    ["55AAEF0200000000", "55AAEF0300000000", "55AAEF0400000000", "55AAEF0500000000",
     "55AAEF0600000000", "55AAEF3040000000", "55AA1F2810000000", "55AA1F2813000000"].map
      (fun c => frame (chars c)) := by
  decide!

theorem ltc_only_init_frames : send_frames ltc_only_init =
    ["55AAEF0200000000", "55AAEF0300000000", "55AAEF0400000000", "55AAEF0500000000",
     "55AAEF0600000000", "55AAEF3040000000", "55AA1F2810000000", "55AA1F2813000000"].map
      (fun c => frame (chars c)) := by
  decide!

theorem init_ob_frames : send_frames init_ob =
    ["55AAEF0200000000", "55AAEF0300000000", "55AAEF0400000000", "55AAEF0500000000",
     "55AAEF0600000000", "55AAEF3020000000", "55AA1F2817000000"].map
      (fun c => frame (chars c)) := by
  decide!

theorem dualminer_initscrypt_frames : send_frames dualminer_init_initscrypt_ob =
    ["55AA1F2814000000", "55AA1F2817000000"].map (fun c => frame (chars c)) := by
  decide!

theorem opt_ltc_only_init_eq (st : State) :
    gc3355_opt_ltc_only_init st =
      { st with
        opt_pll_freq := parsed_freq st.opt_dualminer_pll
        wire := st.wire ++ send_frames init_ltc_only_ob ++
          send_frames (pll_freq_switch (parsed_freq st.opt_dualminer_pll)
            (gc3355_get_cts_status st)) } := by
  unfold gc3355_opt_ltc_only_init
  rw [send_cmds_eq, pll_freq_init2_eq]
  rfl

theorem dualminer_init_sha_eq (st : State) (h : st.opt_scrypt = false) :
    gc3355_dualminer_init st =
      { st with
        opt_pll_freq := parsed_freq st.opt_dualminer_pll
        wire := st.wire ++ send_frames init_ob ++
          send_frames (pll_freq_switch (parsed_freq st.opt_dualminer_pll)
            (gc3355_get_cts_status st)) } := by
  unfold gc3355_dualminer_init
  simp only [h, Bool.false_eq_true, if_false, send_cmds_eq, Bool.not_false, if_true,
    pll_freq_init2_eq]
  rfl

theorem dualminer_init_scrypt_eq (st : State) (h : st.opt_scrypt = true) :
    gc3355_dualminer_init st =
      { st with wire := st.wire ++ send_frames dualminer_init_initscrypt_ob } := by
  unfold gc3355_dualminer_init
  simp only [h, if_true, send_cmds_eq, Bool.not_true, Bool.false_eq_true, if_false]

/-- C12: `gc3355_opt_ltc_only_init` appends the 8 LTC-only-init frames followed by the 2
PLL frames of the frequency setting; `gc3355_dualminer_init` appends, in SHA256 mode, the
7 device-init frames followed by the same 2 PLL frames, and in Scrypt mode exactly 2
frames and no PLL frame.  The PLL frames are those `gc3355_pll_freq_init2` appends for
`opt_dualminer_pll`. -/
theorem C12_init_sequences (st : State) :
    (gc3355_opt_ltc_only_init st).wire = st.wire ++
      ["55AAEF0200000000", "55AAEF0300000000", "55AAEF0400000000", "55AAEF0500000000",
       "55AAEF0600000000", "55AAEF3040000000", "55AA1F2810000000", "55AA1F2813000000"].map
        (fun c => frame (chars c)) ++
      send_frames (pll_freq_switch (parsed_freq st.opt_dualminer_pll)
        (gc3355_get_cts_status st)) ∧
    (gc3355_dualminer_init { st with opt_scrypt := false }).wire = st.wire ++
      ["55AAEF0200000000", "55AAEF0300000000", "55AAEF0400000000", "55AAEF0500000000",
       "55AAEF0600000000", "55AAEF3020000000", "55AA1F2817000000"].map
        (fun c => frame (chars c)) ++
      send_frames (pll_freq_switch (parsed_freq st.opt_dualminer_pll)
        (gc3355_get_cts_status st)) ∧
    (gc3355_dualminer_init { st with opt_scrypt := true }).wire = st.wire ++
      ["55AA1F2814000000", "55AA1F2817000000"].map (fun c => frame (chars c)) ∧
    (send_frames (pll_freq_switch (parsed_freq st.opt_dualminer_pll)
      (gc3355_get_cts_status st))).length = 2 ∧
    (gc3355_pll_freq_init2 st st.opt_dualminer_pll).wire = st.wire ++
      send_frames (pll_freq_switch (parsed_freq st.opt_dualminer_pll)
        (gc3355_get_cts_status st)) := by
  refine ⟨?_, ?_, ?_, pll_frames_length _ _, ?_⟩
  · rw [opt_ltc_only_init_eq, ← init_ltc_only_frames]
  · rw [dualminer_init_sha_eq _ rfl, ← init_ob_frames]
    rfl
  · rw [dualminer_init_scrypt_eq _ rfl, ← dualminer_initscrypt_frames]
  · rw [pll_freq_init2_eq]

/-! ## Unit configuration at thread start -/

theorem set_rts_cts (st : State) (value : Nat) :
    gc3355_get_cts_status (gc3355_set_rts_status st value) = gc3355_get_cts_status st := by
  have e1 : ∀ m : Nat, (m ||| 4) &&& 32 = m &&& 32 := by
    intro m
    apply Nat.eq_of_testBit_eq
    intro i
    simp only [Nat.testBit_and, Nat.testBit_or]
    have h4 : Nat.testBit 4 i = decide (2 = i) := Nat.testBit_two_pow (n := 2) (m := i)
    have h32 : Nat.testBit 32 i = decide (5 = i) := Nat.testBit_two_pow (n := 5) (m := i)
    rw [h4, h32]
    by_cases h : 5 = i
    · subst h; simp
    · simp [h]
  have e2 : ∀ m : Nat, (m &&& 0xFFFFFFFB) &&& 32 = m &&& 32 := by
    intro m
    rw [Nat.land_assoc]
    rfl
  unfold gc3355_set_rts_status gc3355_get_cts_status
  by_cases hv : value ≠ 0
  · rw [if_pos hv]
    show (if (st.modem ||| 4) &&& 32 ≠ 0 then (0 : Int) else 1) = _
    rw [e1]
  · rw [if_neg hv]
    show (if (st.modem &&& 0xFFFFFFFB) &&& 32 ≠ 0 then (0 : Int) else 1) = _
    rw [e2]

theorem init_scrypt_eq (st : State) (pll_freq btc_unit : Option String) (is_ltc_only : Bool)
    (h : st.opt_scrypt = true) :
    gc3355_init st pll_freq btc_unit is_ltc_only =
      if is_ltc_only then gc3355_send_cmds st ltc_only_init else st := by
  unfold gc3355_init
  rw [h]
  simp only [if_true, ite_self]

/-- C13: in Scrypt mode `gc3355_init` is the state after sending `ltc_only_init` when the
ltc-only flag is set and the unchanged state otherwise, whatever the voltage mode, the fan
flag and the operator unit count: no unit-gating encoder takes part, the frames appended
are none or exactly the 8 of `ltc_only_init`, `opt_btc_number` is untouched, and the result
is the same for every unit count.  `dualminer_thread_init`, which passes `opt_scrypt` as
the ltc-only flag, appends exactly those 8 frames. -/
theorem C13_scrypt_skips_unit_config (st : State) (pll_freq btc_unit : Option String)
    (is_ltc_only : Bool) (h : st.opt_scrypt = true) :
    gc3355_init st pll_freq btc_unit is_ltc_only =
      (if is_ltc_only then gc3355_send_cmds st ltc_only_init else st) ∧
    (gc3355_init st pll_freq btc_unit is_ltc_only).wire = st.wire ++
      (if is_ltc_only then
        ["55AAEF0200000000", "55AAEF0300000000", "55AAEF0400000000", "55AAEF0500000000",
         "55AAEF0600000000", "55AAEF3040000000", "55AA1F2810000000", "55AA1F2813000000"].map
          (fun c => frame (chars c))
      else []) ∧
    (gc3355_init st pll_freq btc_unit is_ltc_only).opt_btc_number = st.opt_btc_number ∧
    (∀ other : Option String,
      gc3355_init st pll_freq other is_ltc_only =
        gc3355_init st pll_freq btc_unit is_ltc_only) ∧
    (dualminer_thread_init st).2.wire = st.wire ++
      ["55AAEF0200000000", "55AAEF0300000000", "55AAEF0400000000", "55AAEF0500000000",
       "55AAEF0600000000", "55AAEF3040000000", "55AA1F2810000000", "55AA1F2813000000"].map
        (fun c => frame (chars c)) := by
  refine ⟨init_scrypt_eq st pll_freq btc_unit is_ltc_only h, ?_, ?_, ?_, ?_⟩
  · rw [init_scrypt_eq st pll_freq btc_unit is_ltc_only h]
    cases is_ltc_only
    · simp only [Bool.false_eq_true, if_false, List.append_nil]
    · simp only [if_true]
      rw [send_cmds_eq, ← ltc_only_init_frames]
  · rw [init_scrypt_eq st pll_freq btc_unit is_ltc_only h]
    cases is_ltc_only
    · rfl
    · simp only [if_true]
      rw [send_cmds_eq]
  · intro other
    rw [init_scrypt_eq st pll_freq btc_unit is_ltc_only h,
      init_scrypt_eq st pll_freq other is_ltc_only h]
  · unfold dualminer_thread_init
    simp only [h, if_true]
    have hs : (gc3355_set_rts_status st RTS_HIGH).opt_scrypt = true := by
      rw [← h]; rfl
    rw [init_scrypt_eq _ _ _ _ hs, if_pos hs, send_cmds_eq, ← ltc_only_init_frames]
    rfl

/-- Witness for C13: a Scrypt device with status word 0, the count string "33" and the
ltc-only flag set. -/
theorem C13_scrypt_skips_unit_config_witness :
    (initial_state true 0).opt_scrypt = true ∧
    (gc3355_init (initial_state true 0) none (some "33") true =
      (if true then gc3355_send_cmds (initial_state true 0) ltc_only_init
        else initial_state true 0) ∧
    (gc3355_init (initial_state true 0) none (some "33") true).wire =
      (initial_state true 0).wire ++
      (if true then
        ["55AAEF0200000000", "55AAEF0300000000", "55AAEF0400000000", "55AAEF0500000000",
         "55AAEF0600000000", "55AAEF3040000000", "55AA1F2810000000", "55AA1F2813000000"].map
          (fun c => frame (chars c))
      else []) ∧
    (gc3355_init (initial_state true 0) none (some "33") true).opt_btc_number =
      (initial_state true 0).opt_btc_number ∧
    (∀ other : Option String,
      gc3355_init (initial_state true 0) none other true =
        gc3355_init (initial_state true 0) none (some "33") true) ∧
    (dualminer_thread_init (initial_state true 0)).2.wire = (initial_state true 0).wire ++
      ["55AAEF0200000000", "55AAEF0300000000", "55AAEF0400000000", "55AAEF0500000000",
       "55AAEF0600000000", "55AAEF3040000000", "55AA1F2810000000", "55AA1F2813000000"].map
        (fun c => frame (chars c))) :=
  ⟨rfl, C13_scrypt_skips_unit_config (initial_state true 0) none (some "33") true rfl⟩

theorem one_by_one_wire_congr (st1 st2 : State) (s : String) (h : st1.wire = st2.wire) :
    (gc3355_open_btc_unit_one_by_one st1 s).wire =
      (gc3355_open_btc_unit_one_by_one st2 s).wire := by
  unfold gc3355_open_btc_unit_one_by_one
  simp only []
  generalize (if (if atoi s < 0 then 0 else atoi s) > 160 then (160 : Int)
    else if atoi s < 0 then 0 else atoi s) = c
  by_cases h1 : c > 0 ∧ c ≤ 160
  · rw [if_pos h1, if_pos h1]
    show (one_by_one_loop st1 (c.toNat + 1)).wire = (one_by_one_loop st2 (c.toNat + 1)).wire
    rw [one_by_one_loop_wire, one_by_one_loop_wire, h]
  · rw [if_neg h1, if_neg h1]
    by_cases h0 : c = 0
    · rw [if_pos h0, if_pos h0, send_cmds_wire, send_cmds_wire, h]
    · rw [if_neg h0, if_neg h0, h]

theorem init_sha_eq (st : State) (pll_freq btc_unit : Option String) (is_ltc_only : Bool)
    (h : st.opt_scrypt = false) :
    gc3355_init st pll_freq btc_unit is_ltc_only =
      gc3355_open_btc_unit_one_by_one st
        (match btc_unit with
          | none => if gc3355_get_cts_status st = 1 then "0" else "60"
          | some s => s) := by
  unfold gc3355_init
  rw [h]
  simp only [Bool.false_eq_true, if_false]
  by_cases hc : gc3355_get_cts_status st = 1
  · rw [if_pos hc]
    by_cases hf : st.opt_hubfans = true
    · rw [if_pos hf]
      cases btc_unit
      · simp only [hc, if_true]; rfl
      · rfl
    · rw [if_neg hf]
      cases btc_unit
      · simp only [hc, if_true]; rfl
      · rfl
  · rw [if_neg hc]
    by_cases hf : st.opt_hubfans = true
    · rw [if_pos hf]
      cases btc_unit
      · simp only [hc, if_false]; rfl
      · rfl
    · rw [if_neg hf]
      cases btc_unit
      · simp only [hc, if_false]; rfl
      · rfl

/-- C17: in SHA256 mode with no operator unit count, `gc3355_init` is the incremental
gating path run with the count string "0" when the CTS status is 1 (HighVoltage) and with
"60" otherwise (LowVoltage), for either value of the fan flag; and for all inputs the
frames `gc3355_init` puts on the wire are the same with the fan flag set and cleared. -/
theorem C17_default_unit_count (st : State) (pll_freq btc_unit : Option String)
    (is_ltc_only fan : Bool) :
    gc3355_init { st with opt_scrypt := false, opt_hubfans := fan } pll_freq none
        is_ltc_only =
      (if gc3355_get_cts_status st = 1 then
        gc3355_open_btc_unit_one_by_one { st with opt_scrypt := false, opt_hubfans := fan } "0"
      else
        gc3355_open_btc_unit_one_by_one { st with opt_scrypt := false, opt_hubfans := fan }
          "60") ∧
    atoi "0" = 0 ∧ atoi "60" = 60 ∧
    (gc3355_init { st with opt_hubfans := true } pll_freq btc_unit is_ltc_only).wire =
      (gc3355_init { st with opt_hubfans := false } pll_freq btc_unit is_ltc_only).wire := by
  refine ⟨?_, by decide, by decide, ?_⟩
  · rw [init_sha_eq _ _ _ _ rfl]
    have hcts : gc3355_get_cts_status { st with opt_scrypt := false, opt_hubfans := fan } =
        gc3355_get_cts_status st := rfl
    simp only [hcts]
    by_cases hc : gc3355_get_cts_status st = 1
    · rw [if_pos hc, if_pos hc]
    · rw [if_neg hc, if_neg hc]
  · by_cases hs : st.opt_scrypt = true
    · rw [init_scrypt_eq { st with opt_hubfans := true } _ _ _ hs,
        init_scrypt_eq { st with opt_hubfans := false } _ _ _ hs]
      cases is_ltc_only
      · rfl
      · simp only [if_true]
        rw [send_cmds_wire, send_cmds_wire]
    · have hf : st.opt_scrypt = false := by simpa using hs
      rw [init_sha_eq { st with opt_hubfans := true } _ _ _ hf,
        init_sha_eq { st with opt_hubfans := false } _ _ _ hf]
      exact one_by_one_wire_congr _ _ _ rfl

/-! ## Shutdown -/

theorem mask_zero : open_btc_unit_mask (some "0") = [0, 0, 0, 0, 0] := by decide

theorem set_rts_wire (st : State) (value : Nat) :
    (gc3355_set_rts_status st value).wire = st.wire := by
  unfold gc3355_set_rts_status
  split <;> rfl

theorem shutdown_sha_wire (le : Bool) (st : State) (h : st.opt_scrypt = false) :
    (dualminer_thread_shutdown le st).wire = st.wire ++
      [[0x55, 0xAA, 0xEF, 0x02, 0, 0, 0, 0], [0x55, 0xAA, 0xEF, 0x03, 0, 0, 0, 0],
       [0x55, 0xAA, 0xEF, 0x04, 0, 0, 0, 0], [0x55, 0xAA, 0xEF, 0x05, 0, 0, 0, 0],
       [0x55, 0xAA, 0xEF, 0x06, 0, 0, 0, 0]] := by
  unfold dualminer_thread_shutdown
  simp only [h, Bool.false_eq_true, if_false]
  rw [set_rts_wire, open_btc_unit_wire, render_frames, mask_zero]
  congr 1
  cases le <;> decide

/-- C14 as stated fails: in SHA256 mode, on either kind of host, the frames written by
`dualminer_thread_shutdown` are exactly the five all-gates-closed frames, the same as the
table `btc_gating` and as the first five frames of the init sequence. -/
theorem C14_counterexample :
    (∀ le : Bool, (dualminer_thread_shutdown le (initial_state false 0)).wire =
      send_frames btc_gating) ∧
    (∀ le : Bool, (dualminer_thread_shutdown le (initial_state false 0)).wire =
      (gc3355_dualminer_init (initial_state false 0)).wire.take 5) ∧
    send_frames btc_gating =
      ["55AAEF0200000000", "55AAEF0300000000", "55AAEF0400000000", "55AAEF0500000000",
       "55AAEF0600000000"].map (fun c => frame (chars c)) := by
  decide!

/-- C14, amended: in SHA256 mode `dualminer_thread_shutdown` calls `gc3355_open_btc_unit`
with the count string "0", whose mask has no unit enabled, and so appends exactly the five
all-gates-closed frames, a closure of the full 160-bit mask, and records 0 in
`opt_btc_number`. -/
theorem C14_sha_shutdown_closes_all (le : Bool) (st : State) (h : st.opt_scrypt = false) :
    (dualminer_thread_shutdown le st).wire = st.wire ++
      ["55AAEF0200000000", "55AAEF0300000000", "55AAEF0400000000", "55AAEF0500000000",
       "55AAEF0600000000"].map (fun c => frame (chars c)) ∧
    (dualminer_thread_shutdown le st).wire = st.wire ++
      [[0x55, 0xAA, 0xEF, 0x02, 0, 0, 0, 0], [0x55, 0xAA, 0xEF, 0x03, 0, 0, 0, 0],
       [0x55, 0xAA, 0xEF, 0x04, 0, 0, 0, 0], [0x55, 0xAA, 0xEF, 0x05, 0, 0, 0, 0],
       [0x55, 0xAA, 0xEF, 0x06, 0, 0, 0, 0]] ∧
    units_enabled (open_btc_unit_mask (some "0")) = 0 ∧
    (dualminer_thread_shutdown le st).opt_btc_number = 0 := by
  have e : ["55AAEF0200000000", "55AAEF0300000000", "55AAEF0400000000", "55AAEF0500000000",
       "55AAEF0600000000"].map (fun c => frame (chars c)) =
      [[0x55, 0xAA, 0xEF, 0x02, 0, 0, 0, 0], [0x55, 0xAA, 0xEF, 0x03, 0, 0, 0, 0],
       [0x55, 0xAA, 0xEF, 0x04, 0, 0, 0, 0], [0x55, 0xAA, 0xEF, 0x05, 0, 0, 0, 0],
       [0x55, 0xAA, 0xEF, 0x06, 0, 0, 0, 0]] := by decide!
  refine ⟨?_, shutdown_sha_wire le st h, ?_, ?_⟩
  · rw [e]; exact shutdown_sha_wire le st h
  · rw [mask_zero]; decide!
  · unfold dualminer_thread_shutdown
    simp only [h, Bool.false_eq_true, if_false]
    unfold gc3355_set_rts_status
    rfl

/-- Witness for C14: a fresh SHA256 device on a little-endian host. -/
theorem C14_sha_shutdown_closes_all_witness :
    (initial_state false 0).opt_scrypt = false ∧
    ((dualminer_thread_shutdown true (initial_state false 0)).wire =
      (initial_state false 0).wire ++
      ["55AAEF0200000000", "55AAEF0300000000", "55AAEF0400000000", "55AAEF0500000000",
       "55AAEF0600000000"].map (fun c => frame (chars c)) ∧
    (dualminer_thread_shutdown true (initial_state false 0)).wire =
      (initial_state false 0).wire ++
      [[0x55, 0xAA, 0xEF, 0x02, 0, 0, 0, 0], [0x55, 0xAA, 0xEF, 0x03, 0, 0, 0, 0],
       [0x55, 0xAA, 0xEF, 0x04, 0, 0, 0, 0], [0x55, 0xAA, 0xEF, 0x05, 0, 0, 0, 0],
       [0x55, 0xAA, 0xEF, 0x06, 0, 0, 0, 0]] ∧
    units_enabled (open_btc_unit_mask (some "0")) = 0 ∧
    (dualminer_thread_shutdown true (initial_state false 0)).opt_btc_number = 0) :=
  ⟨rfl, C14_sha_shutdown_closes_all true (initial_state false 0) rfl⟩

/-! ## Voltage mode -/

theorem land_32 (m : Nat) : m &&& 32 = if m.testBit 5 then 32 else 0 := by
  apply Nat.eq_of_testBit_eq
  intro i
  have h32 : Nat.testBit 32 i = decide (5 = i) := Nat.testBit_two_pow (n := 5) (m := i)
  rw [Nat.testBit_and, h32]
  by_cases hb : m.testBit 5 = true
  · rw [if_pos hb, h32]
    by_cases hi : 5 = i
    · subst hi; simp [hb]
    · simp [hi]
  · rw [if_neg hb, Nat.zero_testBit]
    by_cases hi : 5 = i
    · subst hi; simp [hb]
    · simp [hi]

theorem cts_testBit (st : State) :
    gc3355_get_cts_status st = if st.modem.testBit 5 then 0 else 1 := by
  unfold gc3355_get_cts_status
  rw [land_32]
  by_cases hb : st.modem.testBit 5 = true
  · rw [if_pos hb, if_pos hb, if_pos (by decide)]
  · rw [if_neg hb, if_neg hb, if_neg (by decide)]

/-- C16: the POSIX branch of `gc3355_get_cts_status` returns 0 (LowVoltage) exactly when
bit 0x20 of the modem status word is set and 1 (HighVoltage) when it is clear; so it
returns 0 for every word with that bit set and 1 for every word with that bit cleared,
whatever the other bits are. -/
theorem C16_voltage_mode_polarity (st : State) (m : Nat) :
    gc3355_get_cts_status st = (if st.modem.testBit 5 then 0 else 1) ∧
    gc3355_get_cts_status { st with modem := m ||| 0x20 } = 0 ∧
    gc3355_get_cts_status { st with modem := m &&& (0xFFFFFFFF - 0x20) } = 1 := by
  refine ⟨cts_testBit st, ?_, ?_⟩
  · rw [cts_testBit]
    have h : (m ||| 0x20).testBit 5 = true := by
      rw [Nat.testBit_or]
      have h32 : Nat.testBit 0x20 5 = true := by decide
      rw [h32, Bool.or_true]
    simp only [h, if_true]
  · rw [cts_testBit]
    have h : (m &&& (0xFFFFFFFF - 0x20)).testBit 5 = false := by
      rw [Nat.testBit_and]
      have h32 : Nat.testBit (0xFFFFFFFF - 0x20) 5 = false := by decide
      rw [h32, Bool.and_false]
    simp only [h, Bool.false_eq_true, if_false]

/-! ## Detection -/

theorem dual_reset_eq (st : State) :
    gc3355_dual_reset st =
      { st with modem := (st.modem ||| TIOCM_DTR) &&& flag_complement TIOCM_DTR } := rfl

theorem dual_reset_cts (st : State) :
    gc3355_get_cts_status (gc3355_dual_reset st) = gc3355_get_cts_status st := by
  rw [cts_testBit, cts_testBit, dual_reset_eq]
  have h : ((st.modem ||| TIOCM_DTR) &&& flag_complement TIOCM_DTR).testBit 5 =
      st.modem.testBit 5 := by
    rw [Nat.testBit_and, Nat.testBit_or]
    have h1 : Nat.testBit TIOCM_DTR 5 = false := by decide
    have h2 : Nat.testBit (flag_complement TIOCM_DTR) 5 = true := by decide
    rw [h1, h2, Bool.or_false, Bool.and_true]
  simp only [h]

theorem detect_init_eq (st : State) :
    dualminer_detect_init st =
      (true,
        { st with
          modem := (st.modem ||| TIOCM_DTR) &&& flag_complement TIOCM_DTR
          opt_pll_freq := parsed_freq st.opt_dualminer_pll
          wire := st.wire ++
            send_frames (if st.opt_scrypt then init_ltc_only_ob else init_ob) ++
            send_frames (pll_freq_switch (parsed_freq st.opt_dualminer_pll)
              (gc3355_get_cts_status st)) }) := by
  have hc := dual_reset_cts st
  unfold dualminer_detect_init
  simp only []
  by_cases hs : st.opt_scrypt = true
  · have hr : (gc3355_dual_reset st).opt_scrypt = true := hs
    rw [if_pos hr, if_pos hs, opt_ltc_only_init_eq, hc]
    rfl
  · have hf : st.opt_scrypt = false := by simpa using hs
    have hr : (gc3355_dual_reset st).opt_scrypt = false := hf
    rw [if_neg (by simp [hr]), if_neg hs, dualminer_init_sha_eq _ hr, hc]
    rfl

theorem detect_init_frames (b : Bool) :
    (send_frames (if b then init_ltc_only_ob else init_ob)).length = if b then 8 else 7 := by
  cases b <;> rfl

/-- C15 as stated fails: on a fresh SHA256 device whose first write is refused,
`dualminer_detect_init` still hands all 9 frames to the transport and returns true. -/
theorem C15_counterexample :
    write_failed_between (fun k => decide (k = 0)) (initial_state false 0)
      (dualminer_detect_init (initial_state false 0)).2 ∧
    (dualminer_detect_init (initial_state false 0)).1 = true ∧
    (dualminer_detect_init (initial_state false 0)).2.wire.length = 9 := by
  have hl : (dualminer_detect_init (initial_state false 0)).2.wire.length = 9 := by decide!
  refine ⟨⟨0, Nat.le_refl 0, ?_, rfl⟩, rfl, hl⟩
  rw [hl]
  decide

/-- C15, amended: `dualminer_detect_init` never looks at the outcome of a write; whichever
writes are refused, it hands the whole init sequence of the algorithm mode (8 frames in
Scrypt mode, 7 in SHA256 mode) and the 2 PLL frames to the transport, in order, and
returns true. -/
theorem C15_detect_init_ignores_write_failures (fails : Nat → Bool) (st : State)
    (h : write_failed_between fails st (dualminer_detect_init st).2) :
    (dualminer_detect_init st).1 = true ∧
    (dualminer_detect_init st).2.wire = st.wire ++
      send_frames (if st.opt_scrypt then init_ltc_only_ob else init_ob) ++
      send_frames (pll_freq_switch (parsed_freq st.opt_dualminer_pll)
        (gc3355_get_cts_status st)) ∧
    (dualminer_detect_init st).2.wire.length =
      st.wire.length + (if st.opt_scrypt then 10 else 9) ∧
    (∃ k, st.wire.length ≤ k ∧ k < (dualminer_detect_init st).2.wire.length ∧
      fails k = true) := by
  refine ⟨by rw [detect_init_eq], by rw [detect_init_eq], ?_, h⟩
  rw [detect_init_eq]
  simp only [List.length_append, pll_frames_length, detect_init_frames]
  cases st.opt_scrypt <;> simp

/-- Witness for C15: a fresh SHA256 device whose first write is refused. -/
theorem C15_detect_init_ignores_write_failures_witness :
    write_failed_between (fun k => decide (k = 0)) (initial_state false 0)
      (dualminer_detect_init (initial_state false 0)).2 ∧
    ((dualminer_detect_init (initial_state false 0)).1 = true ∧
    (dualminer_detect_init (initial_state false 0)).2.wire = (initial_state false 0).wire ++
      send_frames (if (initial_state false 0).opt_scrypt then init_ltc_only_ob else init_ob) ++
      send_frames (pll_freq_switch (parsed_freq (initial_state false 0).opt_dualminer_pll)
        (gc3355_get_cts_status (initial_state false 0))) ∧
    (dualminer_detect_init (initial_state false 0)).2.wire.length =
      (initial_state false 0).wire.length +
        (if (initial_state false 0).opt_scrypt then 10 else 9) ∧
    (∃ k, (initial_state false 0).wire.length ≤ k ∧
      k < (dualminer_detect_init (initial_state false 0)).2.wire.length ∧
      (fun k => decide (k = 0)) k = true)) :=
  ⟨⟨0, Nat.le_refl 0, by decide!, rfl⟩,
    C15_detect_init_ignores_write_failures (fun k => decide (k = 0)) (initial_state false 0)
      ⟨0, Nat.le_refl 0, by decide!, rfl⟩⟩

/-! ## Golden vectors -/

theorem golden_sha256_bytes : decode_hex golden_ob_sha256 =
    [0x55, 0xAA, 0x0F, 0x00, 0xA0, 0x87, 0x01, 0x00, 0x4A, 0x54, 0x8F, 0xE4, 0x71, 0xFA, 0x3A, 0x9A,
     0x13, 0x71, 0x14, 0x45, 0x56, 0xC3, 0xF6, 0x4D, 0x25, 0x00, 0xB4, 0x82, 0x60, 0x08, 0xFE, 0x4B,
     0xBF, 0x76, 0x98, 0xC9, 0x4E, 0xBA, 0x79, 0x46, 0xCE, 0x22, 0xA7, 0x2F, 0x4F, 0x67, 0x26, 0x14,
     0x1A, 0x0B, 0x32, 0x87] := by
  decide!

theorem golden_scrypt_bytes : decode_hex golden_ob_scrypt =
    [0x55, 0xAA, 0x1F, 0x00, 0x00, 0x00, 0x00, 0x00, 0x00, 0x00, 0x00, 0x00, 0x00, 0x00, 0x00, 0x00,
     0x00, 0x00, 0x00, 0x00, 0x00, 0x00, 0x00, 0x00, 0x00, 0x00, 0x00, 0x00, 0xAA, 0xAA, 0xAA, 0xAA,
     0x71, 0x1C, 0x00, 0x00, 0x60, 0x3E, 0xBD, 0xB6, 0xE3, 0x5B, 0x05, 0x22, 0x3C, 0x54, 0xF8, 0x15,
     0x5A, 0xC3, 0x31, 0x23, 0x00, 0x6B, 0x41, 0x92, 0xE7, 0xAA, 0xFA, 0xFB, 0xEB, 0x9E, 0xF6, 0x54,
     0x4D, 0x29, 0x73, 0xD7, 0x00, 0x00, 0x00, 0x02, 0x06, 0x9B, 0x9F, 0x9E, 0x3C, 0xE8, 0xA6, 0x77,
     0x8D, 0xEA, 0x3D, 0x7A, 0x00, 0x92, 0x6C, 0xD6, 0xEA, 0xA9, 0x58, 0x55, 0x02, 0xC9, 0xB8, 0x3A,
     0x56, 0x01, 0xF1, 0x98, 0xD7, 0xFB, 0xF0, 0x9B, 0xE9, 0x55, 0x9D, 0x63, 0x35, 0xEB, 0xAD, 0x36,
     0x3E, 0x4F, 0x14, 0x7A, 0x8D, 0x99, 0x34, 0x00, 0x69, 0x63, 0x03, 0x0B, 0x4E, 0x54, 0xC4, 0x08,
     0xC8, 0x37, 0xEB, 0xC2, 0xEE, 0xAC, 0x12, 0x98, 0x52, 0xA5, 0x5F, 0xEE, 0x1B, 0x1D, 0x88, 0xF6,
     0x00, 0x0C, 0x05, 0x00, 0x00, 0x00, 0x06, 0x00] := by
  decide!

theorem sha_byte4 (ob target midstate data : List Nat) (ho : 52 ≤ ob.length) :
    (dualminer_job_prepare false 52 ob target midstate data).2[4]? = some 0 := by
  simp only [dualminer_job_prepare, Bool.false_eq_true, if_false]
  rw [memcpy_get_out _ _ _ _ _ _ (by omega), memcpy_get_out _ _ _ _ _ _ (by omega),
    set_get_ne _ _ _ _ (by omega), set_get_ne _ _ _ _ (by omega),
    set_get_ne _ _ _ _ (by omega), set_get_ne _ _ _ _ (by omega),
    memset_get_in _ _ _ _ _ (by omega) (by omega) (by omega)]

/-- C18 as stated fails: the SHA256 golden vector has 52 bytes and the header 55 AA 0F 00,
but its bytes 4..7 are A0 87 01 00, so it is not the first 52 bytes left by
`dualminer_job_prepare` for any buffer, target, midstate and data; the Scrypt golden
vector has 304 hex digits, that is 152 bytes and not 160, its bytes 148..151 are
00 00 06 00 and not FF FF FF FF, and it is not the first 160 bytes left by
`dualminer_job_prepare` for any inputs. -/
theorem C18_counterexample :
    (decode_hex golden_ob_sha256).length = 52 ∧
    (decode_hex golden_ob_sha256).take 8 = [0x55, 0xAA, 0x0F, 0x00, 0xA0, 0x87, 0x01, 0x00] ∧
    (¬ ∃ ob target midstate data : List Nat, 52 ≤ ob.length ∧
      (dualminer_job_prepare false 52 ob target midstate data).2.take 52 =
        decode_hex golden_ob_sha256) ∧
    (chars golden_ob_scrypt).length = 304 ∧
    (decode_hex golden_ob_scrypt).length = 152 ∧
    (decode_hex golden_ob_scrypt).drop 148 = [0x00, 0x00, 0x06, 0x00] ∧
    (¬ ∃ ob target midstate data : List Nat, 160 ≤ ob.length ∧
      (dualminer_job_prepare true 160 ob target midstate data).2.take 160 =
        decode_hex golden_ob_scrypt) := by
  refine ⟨?_, ?_, ?_, by decide!, ?_, ?_, ?_⟩
  · rw [golden_sha256_bytes]; rfl
  · rw [golden_sha256_bytes]; rfl
  · rintro ⟨ob, target, midstate, data, ho, h⟩
    have h4 := sha_byte4 ob target midstate data ho
    rw [← take_get_lt _ 52 4 (by decide), h, golden_sha256_bytes] at h4
    revert h4
    decide
  · rw [golden_scrypt_bytes]; rfl
  · rw [golden_scrypt_bytes]; rfl
  · rintro ⟨ob, target, midstate, data, ho, h⟩
    have hl := congrArg List.length h
    rw [List.length_take, job_prepare_length, golden_scrypt_bytes] at hl
    have hg : ([0x55, 0xAA, 0x1F, 0x00, 0x00, 0x00, 0x00, 0x00, 0x00, 0x00, 0x00, 0x00, 0x00, 0x00, 0x00, 0x00,
        0x00, 0x00, 0x00, 0x00, 0x00, 0x00, 0x00, 0x00, 0x00, 0x00, 0x00, 0x00, 0xAA, 0xAA, 0xAA, 0xAA,
        0x71, 0x1C, 0x00, 0x00, 0x60, 0x3E, 0xBD, 0xB6, 0xE3, 0x5B, 0x05, 0x22, 0x3C, 0x54, 0xF8, 0x15,
        0x5A, 0xC3, 0x31, 0x23, 0x00, 0x6B, 0x41, 0x92, 0xE7, 0xAA, 0xFA, 0xFB, 0xEB, 0x9E, 0xF6, 0x54,
        0x4D, 0x29, 0x73, 0xD7, 0x00, 0x00, 0x00, 0x02, 0x06, 0x9B, 0x9F, 0x9E, 0x3C, 0xE8, 0xA6, 0x77,
        0x8D, 0xEA, 0x3D, 0x7A, 0x00, 0x92, 0x6C, 0xD6, 0xEA, 0xA9, 0x58, 0x55, 0x02, 0xC9, 0xB8, 0x3A,
        0x56, 0x01, 0xF1, 0x98, 0xD7, 0xFB, 0xF0, 0x9B, 0xE9, 0x55, 0x9D, 0x63, 0x35, 0xEB, 0xAD, 0x36,
        0x3E, 0x4F, 0x14, 0x7A, 0x8D, 0x99, 0x34, 0x00, 0x69, 0x63, 0x03, 0x0B, 0x4E, 0x54, 0xC4, 0x08,
        0xC8, 0x37, 0xEB, 0xC2, 0xEE, 0xAC, 0x12, 0x98, 0x52, 0xA5, 0x5F, 0xEE, 0x1B, 0x1D, 0x88, 0xF6,
        0x00, 0x0C, 0x05, 0x00, 0x00, 0x00, 0x06, 0x00] : List Nat).length = 152 := rfl
    rw [hg] at hl
    omega

/-- C18, amended: the SHA256 golden vector decodes to 52 bytes with header 55 AA 0F 00
and agrees with the SHA256 frame of the midstate in its bytes 8..39 and the data tail in
its bytes 40..51 everywhere except at bytes 4..7, which hold A0 87 01 00 instead of
zeros; the Scrypt golden vector decodes to 152 bytes with header 55 AA 1F 00 and agrees
with the Scrypt frame of the target, midstate and data in its bytes 4..35, 36..67 and
68..147 on bytes 0..147, while its last four bytes 148..151 hold 00 00 06 00 where the
frame has FF FF FF FF. -/
theorem C18_golden_vectors :
    (decode_hex golden_ob_sha256).length = 52 ∧
    (decode_hex golden_ob_sha256).take 4 = [0x55, 0xAA, 0x0F, 0x00] ∧
    ((decode_hex golden_ob_sha256).drop 4).take 4 = [0xA0, 0x87, 0x01, 0x00] ∧
    (dualminer_job_prepare false 52 (List.replicate 52 0xEE) []
        (((decode_hex golden_ob_sha256).drop 8).take 32)
        (List.replicate 64 0 ++ (decode_hex golden_ob_sha256).drop 40)).2 =
      (decode_hex golden_ob_sha256).take 4 ++ [0, 0, 0, 0] ++
        (decode_hex golden_ob_sha256).drop 8 ∧
    (decode_hex golden_ob_scrypt).length = 152 ∧
    (decode_hex golden_ob_scrypt).take 4 = [0x55, 0xAA, 0x1F, 0x00] ∧
    (decode_hex golden_ob_scrypt).drop 148 = [0x00, 0x00, 0x06, 0x00] ∧
    ((dualminer_job_prepare true 160 (List.replicate 160 0xEE)
        (((decode_hex golden_ob_scrypt).drop 4).take 32)
        (((decode_hex golden_ob_scrypt).drop 36).take 32)
        (((decode_hex golden_ob_scrypt).drop 68).take 80)).2.take 148 =
      (decode_hex golden_ob_scrypt).take 148) ∧
    ((dualminer_job_prepare true 160 (List.replicate 160 0xEE)
        (((decode_hex golden_ob_scrypt).drop 4).take 32)
        (((decode_hex golden_ob_scrypt).drop 36).take 32)
        (((decode_hex golden_ob_scrypt).drop 68).take 80)).2.drop 148 =
      [0xFF, 0xFF, 0xFF, 0xFF, 0, 0, 0, 0, 0, 0, 0, 0]) := by
  rw [golden_sha256_bytes, golden_scrypt_bytes]
  decide!

/-! ## Command tables -/

theorem tables_well_formed :
    ∀ t ∈ command_tables, t.getLast? = some "" ∧ ∀ c ∈ t.dropLast, well_formed_cmd c = true := by
  decide!

theorem tables_frames :
    ∀ t ∈ command_tables, send_frames t = t.dropLast.map (fun c => frame (chars c)) := by
  decide!

theorem tables_frame_length :
    ∀ t ∈ command_tables, ∀ c ∈ t.dropLast, (frame (chars c)).length = 8 := by
  decide!

/-- C19: every static command table ends in the empty sentinel, and every entry before it
has exactly 16 characters, all of them upper-case hex digits; so for each table
`gc3355_send_cmds` appends exactly one frame per entry before the sentinel, in table
order, and each of these frames has 8 bytes. -/
theorem C19_tables_well_formed (st : State) :
    (∀ t ∈ command_tables, t.getLast? = some "" ∧
      ∀ c ∈ t.dropLast, (chars c).length = 16 ∧ (chars c).all is_upper_hex = true) ∧
    (∀ t ∈ command_tables,
      (gc3355_send_cmds st t).wire = st.wire ++ t.dropLast.map (fun c => frame (chars c))) ∧
    (∀ t ∈ command_tables, ∀ c ∈ t.dropLast, (frame (chars c)).length = 8) ∧
    command_tables.length = 23 := by
  refine ⟨?_, ?_, tables_frame_length, rfl⟩
  · intro t ht
    refine ⟨(tables_well_formed t ht).1, ?_⟩
    intro c hc
    have h := (tables_well_formed t ht).2 c hc
    unfold well_formed_cmd at h
    simpa using h
  · intro t ht
    rw [send_cmds_wire, tables_frames t ht]

/-- C20: `btc_single_open` has 161 entries, the last of them the empty sentinel and the
160 before it non-empty, and for every k below 160 entry k is the slot prefix 55AAEF0s
with s = 2 + k / 32 followed by the 8 upper-case hex digits, most significant first, of
2 ^ (k mod 32 + 1) - 1. -/
theorem C20_single_open_table :
    btc_single_open.length = 161 ∧
    btc_single_open.getD 160 "?" = "" ∧
    (∀ k < 160, btc_single_open.getD k "" ≠ "") ∧
    (∀ k < 160, chars (btc_single_open.getD k "") =
      chars "55AAEF0" ++ [hexdigit_upper (2 + k / 32)] ++
        hex8_upper (2 ^ (k % 32 + 1) - 1)) := by
  decide!

/-! ## Bulk path against the incremental table -/

theorem single_open_frames : ∀ k < 160, frame (chars (btc_single_open.getD k "")) =
    [0x55, 0xAA, 0xEF, 2 + k / 32] ++ word_bytes_msb (2 ^ (k % 32 + 1) - 1) := by
  decide!

theorem bulk_slot_bytes : ∀ k < 160, ∀ le : Bool,
    ([[0x55, 0xAA, 0xEF, 2, c8 le (btc_group_fill [0, 0, 0, 0, 0] (k + 1)) 0,
        c8 le (btc_group_fill [0, 0, 0, 0, 0] (k + 1)) 1,
        c8 le (btc_group_fill [0, 0, 0, 0, 0] (k + 1)) 2,
        c8 le (btc_group_fill [0, 0, 0, 0, 0] (k + 1)) 3],
       [0x55, 0xAA, 0xEF, 3, c8 le (btc_group_fill [0, 0, 0, 0, 0] (k + 1)) 4,
        c8 le (btc_group_fill [0, 0, 0, 0, 0] (k + 1)) 5,
        c8 le (btc_group_fill [0, 0, 0, 0, 0] (k + 1)) 6,
        c8 le (btc_group_fill [0, 0, 0, 0, 0] (k + 1)) 7],
       [0x55, 0xAA, 0xEF, 4, c8 le (btc_group_fill [0, 0, 0, 0, 0] (k + 1)) 8,
        c8 le (btc_group_fill [0, 0, 0, 0, 0] (k + 1)) 9,
        c8 le (btc_group_fill [0, 0, 0, 0, 0] (k + 1)) 10,
        c8 le (btc_group_fill [0, 0, 0, 0, 0] (k + 1)) 11],
       [0x55, 0xAA, 0xEF, 5, c8 le (btc_group_fill [0, 0, 0, 0, 0] (k + 1)) 12,
        c8 le (btc_group_fill [0, 0, 0, 0, 0] (k + 1)) 13,
        c8 le (btc_group_fill [0, 0, 0, 0, 0] (k + 1)) 14,
        c8 le (btc_group_fill [0, 0, 0, 0, 0] (k + 1)) 15],
       [0x55, 0xAA, 0xEF, 6, c8 le (btc_group_fill [0, 0, 0, 0, 0] (k + 1)) 16,
        c8 le (btc_group_fill [0, 0, 0, 0, 0] (k + 1)) 17,
        c8 le (btc_group_fill [0, 0, 0, 0, 0] (k + 1)) 18,
        c8 le (btc_group_fill [0, 0, 0, 0, 0] (k + 1)) 19]] : List (List Nat)).getD (k / 32) [] =
      [0x55, 0xAA, 0xEF, 2 + k / 32] ++
        (if le then (word_bytes_msb (2 ^ (k % 32 + 1) - 1)).reverse
          else word_bytes_msb (2 ^ (k % 32 + 1) - 1)) := by
  decide!

theorem bulk_slot_frame (le : Bool) (st : State) (s : String) (k : Nat) (hk : k < 160)
    (hs : atoi s = ((k + 1 : Nat) : Int)) :
    ((gc3355_open_btc_unit le st (some s)).wire.drop st.wire.length).getD (k / 32) [] =
      [0x55, 0xAA, 0xEF, 2 + k / 32] ++
        (if le then (word_bytes_msb (2 ^ (k % 32 + 1) - 1)).reverse
          else word_bytes_msb (2 ^ (k % 32 + 1) - 1)) := by
  rw [open_btc_unit_wire, List.drop_left, render_frames, mask_in_range s (k + 1) hs (by omega)]
  exact bulk_slot_bytes k hk le

theorem word_bytes_palindrome : ∀ k < 160,
    ((word_bytes_msb (2 ^ (k % 32 + 1) - 1)).reverse = word_bytes_msb (2 ^ (k % 32 + 1) - 1) ↔
      k % 32 = 31) := by
  decide!

/-- C21 as stated fails: asked for 1 unit on a little-endian host, `gc3355_open_btc_unit`
writes 55 AA EF 02 01 00 00 00 for word slot 0, while entry 0 of `btc_single_open`
decodes to 55 AA EF 02 00 00 00 01. -/
theorem C21_counterexample :
    atoi "1" = 1 ∧
    (gc3355_open_btc_unit true (initial_state false 0) (some "1")).wire.getD (0 / 32) [] =
      [0x55, 0xAA, 0xEF, 0x02, 0x01, 0x00, 0x00, 0x00] ∧
    frame (chars (btc_single_open.getD 0 "")) =
      [0x55, 0xAA, 0xEF, 0x02, 0x00, 0x00, 0x00, 0x01] ∧
    (gc3355_open_btc_unit true (initial_state false 0) (some "1")).wire.getD (0 / 32) [] ≠
      frame (chars (btc_single_open.getD 0 "")) := by
  decide!

/-- C21, amended: for every k below 160 and a count string parsing to k + 1, with
w = 2 ^ (k mod 32 + 1) - 1 the word of slot k / 32, entry k of `btc_single_open` decodes to
55 AA EF, the slot byte 2 + k / 32 and the four bytes of w most significant first; the
frame `gc3355_open_btc_unit` writes for that slot on a little-endian host has the same
first four bytes and the same four bytes of w in the opposite order, so the two frames are
equal exactly when k mod 32 = 31; with the byte view of a big-endian host the two frames
are equal for every k. -/
theorem C21_bulk_and_table_encoding (st : State) (s : String) (k : Nat) (hk : k < 160)
    (hs : atoi s = ((k + 1 : Nat) : Int)) :
    frame (chars (btc_single_open.getD k "")) =
      [0x55, 0xAA, 0xEF, 2 + k / 32] ++ word_bytes_msb (2 ^ (k % 32 + 1) - 1) ∧
    ((gc3355_open_btc_unit true st (some s)).wire.drop st.wire.length).getD (k / 32) [] =
      [0x55, 0xAA, 0xEF, 2 + k / 32] ++ (word_bytes_msb (2 ^ (k % 32 + 1) - 1)).reverse ∧
    (((gc3355_open_btc_unit true st (some s)).wire.drop st.wire.length).getD (k / 32) [] =
      frame (chars (btc_single_open.getD k "")) ↔ k % 32 = 31) ∧
    ((gc3355_open_btc_unit false st (some s)).wire.drop st.wire.length).getD (k / 32) [] =
      frame (chars (btc_single_open.getD k "")) := by
  refine ⟨single_open_frames k hk, bulk_slot_frame true st s k hk hs, ?_, ?_⟩
  · rw [bulk_slot_frame true st s k hk hs, single_open_frames k hk, if_pos rfl,
      List.append_cancel_left_eq]
    exact word_bytes_palindrome k hk
  · rw [bulk_slot_frame false st s k hk hs, single_open_frames k hk]
    rfl

/-- Witness for C21: 10 units (k = 9) on a fresh SHA256 device. -/
theorem C21_bulk_and_table_encoding_witness :
    9 < 160 ∧ atoi "10" = ((9 + 1 : Nat) : Int) ∧
    (frame (chars (btc_single_open.getD 9 "")) =
      [0x55, 0xAA, 0xEF, 2 + 9 / 32] ++ word_bytes_msb (2 ^ (9 % 32 + 1) - 1) ∧
    ((gc3355_open_btc_unit true (initial_state false 0) (some "10")).wire.drop
        (initial_state false 0).wire.length).getD (9 / 32) [] =
      [0x55, 0xAA, 0xEF, 2 + 9 / 32] ++ (word_bytes_msb (2 ^ (9 % 32 + 1) - 1)).reverse ∧
    (((gc3355_open_btc_unit true (initial_state false 0) (some "10")).wire.drop
        (initial_state false 0).wire.length).getD (9 / 32) [] =
      frame (chars (btc_single_open.getD 9 "")) ↔ 9 % 32 = 31) ∧
    ((gc3355_open_btc_unit false (initial_state false 0) (some "10")).wire.drop
        (initial_state false 0).wire.length).getD (9 / 32) [] =
      frame (chars (btc_single_open.getD 9 ""))) :=
  ⟨by decide, by decide, C21_bulk_and_table_encoding (initial_state false 0) "10" 9 (by decide)
    (by decide)⟩

/-! ## Table reads of the incremental path -/

theorem one_by_one_reads_wire (st : State) (s : String) (h : 0 < atoi s) :
    (gc3355_open_btc_unit_one_by_one st s).wire = st.wire ++
      (one_by_one_reads s).map (fun i => frame (chars (btc_single_open.getD i ""))) := by
  unfold gc3355_open_btc_unit_one_by_one one_by_one_reads
  simp only []
  generalize hc : (if (if atoi s < 0 then 0 else atoi s) > 160 then (160 : Int)
    else if atoi s < 0 then 0 else atoi s) = c
  have h1 : c > 0 ∧ c ≤ 160 := by
    subst hc
    split_ifs <;> omega
  rw [if_pos h1, if_pos h1]
  exact one_by_one_loop_wire _ _

theorem one_by_one_reads_below (s : String) (h : atoi s < 160) :
    ∀ i ∈ one_by_one_reads s, i ≤ 159 := by
  intro i hi
  unfold one_by_one_reads at hi
  simp only [] at hi
  generalize hc : (if (if atoi s < 0 then 0 else atoi s) > 160 then (160 : Int)
    else if atoi s < 0 then 0 else atoi s) = c at hi
  have h1 : c < 160 := by
    subst hc
    split_ifs <;> omega
  by_cases h2 : c > 0 ∧ c ≤ 160
  · rw [if_pos h2, List.mem_range] at hi
    omega
  · rw [if_neg h2] at hi
    simp at hi

/-- C22 at the failing input: for the count string "160" the loop of
`gc3355_open_btc_unit_one_by_one` reads `btc_single_open` at the indices 0 .. 160; index
160 holds the empty sentinel, which decodes to eight zero bytes, and these are the last of
the 161 frames written.  A larger count such as "200" is clamped to 160 and reads the same
indices. -/
theorem C22_code_at_failing_input :
    atoi "160" = 160 ∧
    one_by_one_reads "160" = List.range 161 ∧
    160 ∈ one_by_one_reads "160" ∧
    btc_single_open.length = 161 ∧
    btc_single_open[160]? = some "" ∧
    (gc3355_open_btc_unit_one_by_one (initial_state false 0) "160").wire =
      (one_by_one_reads "160").map (fun i => frame (chars (btc_single_open.getD i ""))) ∧
    (gc3355_open_btc_unit_one_by_one (initial_state false 0) "160").wire[160]? =
      some (frame (chars "")) ∧
    frame (chars "") = [0, 0, 0, 0, 0, 0, 0, 0] ∧
    (∀ k < 160, (gc3355_open_btc_unit_one_by_one (initial_state false 0) "160").wire[160]? ≠
      some (frame (chars (btc_single_open.getD k "")))) ∧
    one_by_one_reads "200" = List.range 161 := by
  decide!

/-! ## Recorded frequency -/

theorem freqs_of_supported :
    ∀ f ∈ supported_freqs, freqs_of_frames (send_frames (pll_freq_switch f 0)) = [f] := by
  decide!

theorem init2_supported (st : State) (s : String) (h : atoi s ∈ supported_freqs) :
    (gc3355_pll_freq_init2 st (some s)).opt_pll_freq = atoi s ∧
    freqs_of_frames ((gc3355_pll_freq_init2 st (some s)).wire.drop st.wire.length) =
      [atoi s] := by
  rw [pll_freq_init2_eq]
  refine ⟨rfl, ?_⟩
  show freqs_of_frames ((st.wire ++ send_frames (pll_freq_switch (atoi s)
    (gc3355_get_cts_status st))).drop st.wire.length) = [atoi s]
  rw [List.drop_left, pll_switch_supported _ _ h]
  exact freqs_of_supported _ h

/-- C23 at the failing inputs: with no frequency string (NULL), `gc3355_pll_freq_init2`
records 0 in `opt_pll_freq`, which is not a supported frequency, while the pair it writes
is that of 850 MHz when the CTS status is 1 and that of 550 MHz when it is 0; with the
unsupported string "123" it records 123 and writes the 850 MHz pair.  The same record is
left by `dualminer_detect_init` on a device started without a frequency option. -/
theorem C23_code_at_failing_input :
    (gc3355_pll_freq_init2 (initial_state false 0) none).opt_pll_freq = 0 ∧
    (0 : Int) ∉ supported_freqs ∧
    gc3355_get_cts_status (initial_state false 0) = 1 ∧
    (gc3355_pll_freq_init2 (initial_state false 0) none).wire =
      send_frames pll_freq_850M_cmd ∧
    freqs_of_frames (gc3355_pll_freq_init2 (initial_state false 0) none).wire = [850] ∧
    (gc3355_pll_freq_init2 (initial_state false 0x20) none).opt_pll_freq = 0 ∧
    gc3355_get_cts_status (initial_state false 0x20) = 0 ∧
    (gc3355_pll_freq_init2 (initial_state false 0x20) none).wire =
      send_frames pll_freq_550M_cmd ∧
    freqs_of_frames (gc3355_pll_freq_init2 (initial_state false 0x20) none).wire = [550] ∧
    atoi "123" = 123 ∧
    (gc3355_pll_freq_init2 (initial_state false 0) (some "123")).opt_pll_freq = 123 ∧
    (123 : Int) ∉ supported_freqs ∧
    freqs_of_frames (gc3355_pll_freq_init2 (initial_state false 0) (some "123")).wire =
      [850] ∧
    (dualminer_detect_init (initial_state false 0)).2.opt_pll_freq = 0 ∧
    freqs_of_frames ((dualminer_detect_init (initial_state false 0)).2.wire.drop 7) =
      [850] := by
  decide!

/-! ## Option strings outside the range of `int` -/

theorem int_wrap_inputs :
    open_btc_unit_number (some "4294967297") = 1 ∧
    units_enabled (open_btc_unit_mask (some "4294967297")) = 1 ∧
    (gc3355_open_btc_unit true (initial_state false 0) (some "4294967297")).opt_btc_number =
      1 ∧
    (gc3355_open_btc_unit_one_by_one (initial_state false 0) "-4294967295").wire =
      [frame (chars "55AAEF0200000001"), frame (chars "55AAEF0200000003")] ∧
    (gc3355_open_btc_unit_one_by_one (initial_state false 0) "2147483648").wire =
      send_frames btc_gating ∧
    (gc3355_pll_freq_init2 (initial_state false 0) (some "4294967696")).wire =
      send_frames pll_freq_400M_cmd ∧
    (gc3355_pll_freq_init2 (initial_state false 0) (some "4294967696")).opt_pll_freq = 400 ∧
    (gc3355_opt_ltc_only_init
        { initial_state true 0 with opt_dualminer_pll := some "4294967696" }).wire.drop 8 =
      send_frames pll_freq_400M_cmd ∧
    (dualminer_detect_init
        { initial_state false 0 with opt_dualminer_pll := some "4294967696" }).2.wire.drop 7 =
      send_frames pll_freq_400M_cmd := by
  decide!

end Dualminer
